import Mathlib

/- Verification of the staged audio-generation pipeline implemented in
`app/src/main/cpp/stable_audio_jni.cpp` (Storyteller repository).

The development shallowly embeds:
* the numeric helpers `fill_sigmas`, `sampler_ping_pong`, `save_as_wav`,
  the parameter clamping of `generate()` and the `logsnr_max` selection,
  with C++ `float` arithmetic modelled as exact real arithmetic; and
* the control flow of
  `Java_com_dramebaz_app_ai_audio_StableAudioNative_generate` together
  with the lazy `loadT5` / `loadDiT` / `loadAutoEncoder` /
  `unload*` helpers of `StableAudioHandle`, as a deterministic function
  from an environment of branch outcomes (which loads, invocations and
  cancellation checks succeed) to the ordered list of observable events
  (resource acquisitions/releases, invocations, progress stores,
  cancellation checks) plus the call outcome. -/

/- ------------------------------------------------------------------ -/
/- Audio constants (lines 135-138 and 167-170 of stable_audio_jni.cpp) -/
/- ------------------------------------------------------------------ -/

/-- Sample rate `k_audio_sr = 44100`. -/
def k_audio_sr : ℤ := 44100

/-- Channel count `k_audio_num_channels = 2`. -/
def k_audio_num_channels : ℤ := 2

/-- Bits per sample `k_bits_per_sample = 32`. -/
def k_bits_per_sample : ℤ := 32

/-- Constant `k_logsnr_max = -6.0f`. -/
def k_logsnr_max : ℝ := -6

/-- Constant `k_sigma_min = 0.0f`. -/
def k_sigma_min : ℝ := 0

/-- Constant `k_sigma_max = 1.0f`. -/
def k_sigma_max : ℝ := 1

/- ------------------------------------------------------------------ -/
/- Parameter clamping (lines 850-851):
   `audio_len_sec = std::max(0.5f, std::min(11.0f, duration_seconds))`
   `steps = std::max(1, std::min(100, num_steps))` -/
/- ------------------------------------------------------------------ -/

/-- Duration clamp performed by `generate()` before any stage runs. -/
noncomputable def clamp_duration (d : ℝ) : ℝ := max 0.5 (min 11 d)

/-- Step-count clamp performed by `generate()` before any stage runs. -/
def clamp_steps (n : ℤ) : ℤ := max 1 (min 100 n)

/- ------------------------------------------------------------------ -/
/- The log-SNR upper bound used by the schedule (lines 1184-1187):
   `float logsnr_max = k_logsnr_max;`
   `if (sigma_max < 1) logsnr_max = log(((1 - sigma_max)/sigma_max) + 1e-6f);` -/
/- ------------------------------------------------------------------ -/

/-- The `logsnr_max` value computed by `generate()` from `sigma_max`. -/
noncomputable def logsnr_max_of (sigma_max : ℝ) : ℝ :=
  if sigma_max < 1 then Real.log ((1 - sigma_max) / sigma_max + 1e-6)
  else k_logsnr_max

/- ------------------------------------------------------------------ -/
/- Noise schedule `fill_sigmas` (lines 222-240).  The code fills
   `arr[0]=start`, `arr[sz-1]=end`, `arr[i]=arr[i-1]+step` for
   `1 <= i <= sz-2` with `step=(end-start)/(sz-1)`, then maps every
   entry through `x <- 1/(1+exp(x))`, then pins `arr[0]=sigma_max` and
   `arr[sz-1]=k_sigma_min` (= 0).  We model the cumulative linspace by
   `linspace_val` and fold the final pinning into the per-index value
   (the sigmoid images of the two endpoints are overwritten by the
   pinning, so they do not appear in the result). -/
/- ------------------------------------------------------------------ -/

/-- Cumulative linspace `arr[i] = arr[i-1] + step` with `arr[0] = start`. -/
def linspace_val (start step : ℝ) : ℕ → ℝ
  | 0 => start
  | i + 1 => linspace_val start step i + step

/-- Value at index `i` of the array produced by `fill_sigmas` on an
array of size `sz`, after the sigmoid map and the edge pinning. -/
noncomputable def fill_sigmas_val (sz : ℕ) (start endv sigma_max : ℝ) (i : ℕ) : ℝ :=
  if i = 0 then sigma_max
  else if i = sz - 1 then k_sigma_min
  else 1 / (1 + Real.exp (linspace_val start ((endv - start) / ((sz : ℝ) - 1)) i))

/-- The array produced by `fill_sigmas` on an array of size `sz`. -/
noncomputable def fill_sigmas (sz : ℕ) (start endv sigma_max : ℝ) : List ℝ :=
  (List.range sz).map (fill_sigmas_val sz start endv sigma_max)

/-- The sigma schedule computed by `generate()` for `steps` diffusion
steps (lines 1183-1188): a `steps+1`-element `fill_sigmas` array from
`logsnr_max_of sigma_max` to `2.0`. -/
noncomputable def noise_schedule (steps : ℕ) (sigma_max : ℝ) : List ℝ :=
  fill_sigmas (steps + 1) (logsnr_max_of sigma_max) 2 sigma_max

/- ------------------------------------------------------------------ -/
/- Ping-pong sampler (lines 243-256).  `dit_out_data` holds the model
   prediction on entry and is overwritten in place with the denoised
   estimate; `dit_x_in_data` holds the current state and is overwritten
   with the re-noised state.  We model the two passes functionally:
   `state` = dit_x_in_data, `pred` = dit_out_data, `noise` = the freshly
   drawn `rand_tensor` (abstracted as a parameter: `fill_random_norm_dist`
   draws from a seeded `std::mt19937` normal distribution, which has no
   algebraic specification). -/
/- ------------------------------------------------------------------ -/

/-- First loop of `sampler_ping_pong`:
`dit_out_data[i] = dit_x_in_data[i] - cur_t * dit_out_data[i]`. -/
def sampler_denoised (state pred : List ℝ) (cur_t : ℝ) : List ℝ :=
  List.zipWith (fun x p => x - cur_t * p) state pred

/-- Second loop of `sampler_ping_pong`:
`dit_x_in_data[i] = (1 - next_t) * dit_out_data[i] + next_t * rand_tensor[i]`,
returning the updated state. -/
def sampler_ping_pong (state pred noise : List ℝ) (cur_t next_t : ℝ) : List ℝ :=
  List.zipWith (fun d n => (1 - next_t) * d + next_t * n)
    (sampler_denoised state pred cur_t) noise

/- ------------------------------------------------------------------ -/
/- WAV serialization `save_as_wav` (lines 259-297).  The byte stream is
   modelled as the ordered list of fields the code writes, each with its
   written width: 4-byte tags, 4-byte little-endian integers, 2-byte
   little-endian integers, and 4-byte float samples. -/
/- ------------------------------------------------------------------ -/

/-- One field written by `save_as_wav`, tagged with its byte width. -/
inductive WavField where
  | tag : String → WavField
  | u32 : ℤ → WavField
  | u16 : ℤ → WavField
  | f32 : ℝ → WavField

/-- Number of bytes `save_as_wav` writes for one field. -/
def wavFieldBytes : WavField → ℕ
  | .tag _ => 4
  | .u32 _ => 4
  | .u16 _ => 2
  | .f32 _ => 4

/-- Total byte count of a field list. -/
def wavBytesTotal (l : List WavField) : ℕ := (l.map wavFieldBytes).sum

/-- Interleaved sample section: for `i = 0 .. buffer_sz-1` the code
writes `left_ch[i]` then `right_ch[i]`. -/
def wav_samples (left right : List ℝ) (buffer_sz : ℕ) : List WavField :=
  (List.range buffer_sz).flatMap
    (fun i => [WavField.f32 (left.getD i 0), WavField.f32 (right.getD i 0)])

/-- The field sequence written by `save_as_wav` (header then data),
with `byte_rate`, `block_align`, `data_chunk_sz` and `file_sz` computed
exactly as in the code. -/
def save_as_wav (left right : List ℝ) (buffer_sz : ℕ) : List WavField :=
  [WavField.tag "RIFF",
   WavField.u32 (44 + (buffer_sz : ℤ) * 2 * 4 - 8),
   WavField.tag "WAVE",
   WavField.tag "fmt ",
   WavField.u32 16,
   WavField.u16 3,
   WavField.u16 k_audio_num_channels,
   WavField.u32 k_audio_sr,
   WavField.u32 (k_audio_sr * k_audio_num_channels * (k_bits_per_sample / 8)),
   WavField.u16 (k_audio_num_channels * (k_bits_per_sample / 8)),
   WavField.u16 k_bits_per_sample,
   WavField.tag "data",
   WavField.u32 ((buffer_sz : ℤ) * 2 * 4)]
  ++ wav_samples left right buffer_sz

/-- Sample count passed by `generate()` to `save_as_wav`
(lines 1312-1313): `min(size_t(audio_len_sec * k_audio_sr),
total_audio_samples)`, with `audio_len_sec` the clamped duration. -/
noncomputable def generate_num_samples (duration : ℝ) (total_audio_samples : ℕ) : ℕ :=
  min ⌊clamp_duration duration * 44100⌋₊ total_audio_samples

/- ------------------------------------------------------------------ -/
/- Control-flow model of `generate()` (lines 818-1332) and the lazy
   load/unload helpers of `StableAudioHandle` (lines 364-718).

   The three stages and the per-stage resources a load can acquire:
   the memory-mapped model file (`FlatBufferModel::BuildFromFile`), the
   interpreter (`InterpreterBuilder`), and the GPU / XNNPACK delegates.
   A failed delegate create-or-attach is modelled as an acquisition
   immediately followed by a release (the code resets the delegate
   pointer on attach failure); a failed `InterpreterBuilder` run leaves
   the interpreter null (TFLite resets it on every error path), so only
   the model file is acquired and then released on that branch. -/
/- ------------------------------------------------------------------ -/

/-- One of the three lazily loaded stages. -/
inductive Stage where
  | t5 | dit | ae
deriving DecidableEq

/-- One per-stage resource kind held by `StableAudioHandle`. -/
inductive StageRes where
  | modelFile | interp | gpuDelegate | xnnDelegate
deriving DecidableEq

/-- A concrete resource: a stage's model file, interpreter or delegate. -/
abbrev Res := Stage × StageRes

/-- Observable events of one `generate()` call, in program order. -/
inductive Ev where
  | acq : Res → Ev
  | rel : Res → Ev
  | invoke : Stage → ℕ → Ev
  | checkCancel : Bool → Ev
  | storeProgress : ℚ → Ev
  | storeCancelled : Bool → Ev
  | saveWav : Ev
deriving DecidableEq

/-- Error kinds distinguished by the `set_error` messages of the code. -/
inductive GenErr where
  | paramsNull | loadFail | bindFail | slotFail | invokeFail
  | cancelled | shapeMismatch | outputNull | saveFail
deriving DecidableEq

/-- Result of a `generate()` call (`JNI_TRUE` or `JNI_FALSE` plus the
last-error kind). -/
inductive GenOutcome where
  | ok
  | err : GenErr → GenOutcome
deriving DecidableEq

/-- Effect of one event on the set of held resources. -/
def applyEv (s : Finset Res) : Ev → Finset Res
  | .acq r => insert r s
  | .rel r => s.erase r
  | _ => s

/-- All intermediate held-resource states of an event list, starting
from the empty set (nothing is loaded when `generate()` begins). -/
def statesOf (evs : List Ev) : List (Finset Res) :=
  List.scanl applyEv ∅ evs

/-- Held resources after an event list has run. -/
def finalOf (evs : List Ev) : Finset Res :=
  List.foldl applyEv ∅ evs

/-- Stage that an event touches, if any. -/
def evOwner : Ev → Option Stage
  | .acq r => some r.1
  | .rel r => some r.1
  | .invoke m _ => some m
  | _ => none

/-- Every held resource belongs to stage `m`. -/
def OwnedBy (m : Stage) (s : Finset Res) : Prop :=
  ∀ r ∈ s, (r : Res).1 = m

/-- At most one stage has any resource (model handle, interpreter or
delegate) held in state `s`. -/
def AtMostOneStage (s : Finset Res) : Prop :=
  ∀ r₁ ∈ s, ∀ r₂ ∈ s, (r₁ : Res).1 = (r₂ : Res).1

/-- Environment of branch outcomes for one `generate()` call: which
loads, bindings, invocations succeed and when the cancel flag is
observed set.  Fields follow the order of the code. -/
structure GenEnv where
  /-- Whether `GetStringUTFChars` yields both strings (lines 836-843). -/
  stringsOk : Bool
  /-- `handle->try_gpu`: whether the GPU delegate is attempted. -/
  tryGpu : Bool
  /-- `FlatBufferModel::BuildFromFile` succeeds for T5 (line 373). -/
  t5BuildOk : Bool
  /-- `InterpreterBuilder` produces a T5 interpreter (lines 390-393). -/
  t5InterpOk : Bool
  /-- XNNPACK delegate create+attach succeeds for T5 (lines 402-421). -/
  t5XnnOk : Bool
  /-- `AllocateTensors` succeeds for T5 (line 424). -/
  t5AllocOk : Bool
  /-- The T5 input binding succeeds: `typed_tensor` pointers non-null
  and supported tensor types (lines 928-1039). -/
  t5BindOk : Bool
  /-- `t5->Invoke()` succeeds (line 1046). -/
  t5InvokeOk : Bool
  /-- The cross-attention output tensor id is found (line 1056). -/
  t5CrossAttnFound : Bool
  /-- The cancel flag is observed set at the post-T5 checkpoint
  (line 1086). -/
  cancelAfterT5 : Bool
  /-- `BuildFromFile` succeeds for DiT (line 459). -/
  ditBuildOk : Bool
  /-- `InterpreterBuilder` produces a DiT interpreter (line 475). -/
  ditInterpOk : Bool
  /-- GPU delegate create+attach succeeds for DiT (lines 497-505). -/
  ditGpuOk : Bool
  /-- XNNPACK delegate create+attach succeeds for DiT (lines 520-527). -/
  ditXnnOk : Bool
  /-- `AllocateTensors` succeeds for DiT (line 531). -/
  ditAllocOk : Bool
  /-- The required DiT tensors `x`, `t`, output are all found
  (line 1120). -/
  ditTensorsOk : Bool
  /-- Clamped diffusion step count `steps`. -/
  steps : ℕ
  /-- The cancel flag is observed set at the check before step `i`
  (line 1196). -/
  cancelAtStep : ℕ → Bool
  /-- `dit->Invoke()` succeeds at step `i` (line 1206). -/
  ditInvokeOk : ℕ → Bool
  /-- The cancel flag is observed set at the pre-decoder checkpoint
  (line 1248). -/
  cancelBeforeAE : Bool
  /-- `BuildFromFile` succeeds for the AutoEncoder (line 572). -/
  aeBuildOk : Bool
  /-- `InterpreterBuilder` produces an AutoEncoder interpreter
  (lines 579-582). -/
  aeInterpOk : Bool
  /-- GPU delegate create+attach succeeds for the AutoEncoder
  (lines 613-621). -/
  aeGpuOk : Bool
  /-- XNNPACK delegate create+attach succeeds for the AutoEncoder
  (lines 638-645). -/
  aeXnnOk : Bool
  /-- `AllocateTensors` succeeds for the AutoEncoder (line 686). -/
  aeAllocOk : Bool
  /-- The latent buffer size equals the decoder input element count
  (line 1269). -/
  latentMatches : Bool
  /-- `autoencoder->Invoke()` succeeds (line 1286). -/
  aeInvokeOk : Bool
  /-- The decoder output tensor pointer and dims are non-null
  (line 1300). -/
  aeOutOk : Bool
  /-- `save_as_wav` succeeds (line 1320). -/
  saveOk : Bool

/-- Events of the T5 XNNPACK delegate attempt (lines 402-421). -/
def t5XnnEvents (env : GenEnv) : List Ev :=
  if env.t5XnnOk = false then
    [.acq (.t5, .xnnDelegate), .rel (.t5, .xnnDelegate)]
  else [.acq (.t5, .xnnDelegate)]

/-- Events of `unloadT5` (lines 440-449): resets the delegate, the
interpreter and the model (releases on non-held resources are no-ops). -/
def unloadT5Events : List Ev :=
  [.rel (.t5, .xnnDelegate), .rel (.t5, .interp), .rel (.t5, .modelFile)]

/-- Events and success of `loadT5` (lines 365-438). -/
def loadT5Run (env : GenEnv) : List Ev × Bool :=
  if env.t5BuildOk = false then ([], false)
  else if env.t5InterpOk = false then
    ([.acq (.t5, .modelFile), .rel (.t5, .modelFile)], false)
  else if env.t5AllocOk = false then
    ([.acq (.t5, .modelFile), .acq (.t5, .interp)] ++ t5XnnEvents env
      ++ unloadT5Events, false)
  else
    ([.acq (.t5, .modelFile), .acq (.t5, .interp)] ++ t5XnnEvents env, true)

/-- Events of the DiT delegate attempts (lines 485-529): GPU only when
`try_gpu`, then XNNPACK only when no GPU delegate was applied. -/
def ditDelegateEvents (env : GenEnv) : List Ev :=
  (if env.tryGpu = false then []
   else if env.ditGpuOk = false then
     [.acq (.dit, .gpuDelegate), .rel (.dit, .gpuDelegate)]
   else [.acq (.dit, .gpuDelegate)])
  ++ (if env.tryGpu && env.ditGpuOk then []
      else if env.ditXnnOk = false then
        [.acq (.dit, .xnnDelegate), .rel (.dit, .xnnDelegate)]
      else [.acq (.dit, .xnnDelegate)])

/-- Events of `unloadDiT` (lines 550-562), also emitted verbatim by the
`AllocateTensors` failure path of `loadDiT` (lines 531-542). -/
def unloadDiTEvents : List Ev :=
  [.rel (.dit, .gpuDelegate), .rel (.dit, .xnnDelegate),
   .rel (.dit, .interp), .rel (.dit, .modelFile)]

/-- Events and success of `loadDiT` (lines 451-548). -/
def loadDiTRun (env : GenEnv) : List Ev × Bool :=
  if env.ditBuildOk = false then ([], false)
  else if env.ditInterpOk = false then
    ([.acq (.dit, .modelFile), .rel (.dit, .modelFile)], false)
  else if env.ditAllocOk = false then
    ([.acq (.dit, .modelFile), .acq (.dit, .interp)] ++ ditDelegateEvents env
      ++ unloadDiTEvents, false)
  else
    ([.acq (.dit, .modelFile), .acq (.dit, .interp)] ++ ditDelegateEvents env,
     true)

/-- Events of the AutoEncoder delegate attempts (lines 596-647). -/
def aeDelegateEvents (env : GenEnv) : List Ev :=
  (if env.tryGpu = false then []
   else if env.aeGpuOk = false then
     [.acq (.ae, .gpuDelegate), .rel (.ae, .gpuDelegate)]
   else [.acq (.ae, .gpuDelegate)])
  ++ (if env.tryGpu && env.aeGpuOk then []
      else if env.aeXnnOk = false then
        [.acq (.ae, .xnnDelegate), .rel (.ae, .xnnDelegate)]
      else [.acq (.ae, .xnnDelegate)])

/-- Events of `unloadAutoEncoder` (lines 706-718), also emitted by the
`AllocateTensors` failure path of `loadAutoEncoder` (lines 686-698). -/
def unloadAEEvents : List Ev :=
  [.rel (.ae, .gpuDelegate), .rel (.ae, .xnnDelegate),
   .rel (.ae, .interp), .rel (.ae, .modelFile)]

/-- Events and success of `loadAutoEncoder` (lines 564-704). -/
def loadAERun (env : GenEnv) : List Ev × Bool :=
  if env.aeBuildOk = false then ([], false)
  else if env.aeInterpOk = false then
    ([.acq (.ae, .modelFile), .rel (.ae, .modelFile)], false)
  else if env.aeAllocOk = false then
    ([.acq (.ae, .modelFile), .acq (.ae, .interp)] ++ aeDelegateEvents env
      ++ unloadAEEvents, false)
  else
    ([.acq (.ae, .modelFile), .acq (.ae, .interp)] ++ aeDelegateEvents env,
     true)

/-- Progress value stored after diffusion step `i`
(line 1214: `0.10f + 0.75f * (i + 1) / steps`). -/
def progressAtStep (env : GenEnv) (i : ℕ) : ℚ :=
  1/10 + (3/4) * ((i : ℚ) + 1) / (env.steps : ℚ)

/-- The diffusion loop (lines 1195-1220), by remaining step count and
current step index: check the cancel flag, invoke, store progress; on a
set cancel flag or a failed invocation, unload DiT and return the
error. -/
def ditLoopRun (env : GenEnv) : ℕ → ℕ → List Ev × Option GenErr
  | 0, _ => ([], none)
  | n + 1, i =>
    if env.cancelAtStep i then
      ([.checkCancel true] ++ unloadDiTEvents, some .cancelled)
    else if env.ditInvokeOk i = false then
      ([.checkCancel false, .invoke .dit i] ++ unloadDiTEvents,
       some .invokeFail)
    else
      ([.checkCancel false, .invoke .dit i,
        .storeProgress (progressAtStep env i)] ++ (ditLoopRun env n (i + 1)).1,
       (ditLoopRun env n (i + 1)).2)

/-- Phase 3 of `generate()` (lines 1253-1331): load the AutoEncoder,
check the latent size, invoke, save, unload. -/
def phase3Run (env : GenEnv) : List Ev × GenOutcome :=
  if (loadAERun env).2 = false then ((loadAERun env).1, .err .loadFail)
  else if env.latentMatches = false then
    ((loadAERun env).1 ++ unloadAEEvents, .err .shapeMismatch)
  else if env.aeInvokeOk = false then
    ((loadAERun env).1 ++ [.invoke .ae 0] ++ unloadAEEvents, .err .invokeFail)
  else if env.aeOutOk = false then
    ((loadAERun env).1 ++ [.invoke .ae 0, .storeProgress (95/100)]
      ++ unloadAEEvents, .err .outputNull)
  else if env.saveOk = false then
    ((loadAERun env).1 ++ [.invoke .ae 0, .storeProgress (95/100), .saveWav]
      ++ unloadAEEvents, .err .saveFail)
  else
    ((loadAERun env).1 ++ [.invoke .ae 0, .storeProgress (95/100), .saveWav]
      ++ unloadAEEvents ++ [.storeProgress 1], .ok)

/-- Phase 2 of `generate()` (lines 1091-1251): load DiT, resolve
tensors, run the diffusion loop, unload DiT, store progress 0.85,
check the cancel flag, then run phase 3. -/
def phase2Run (env : GenEnv) : List Ev × GenOutcome :=
  if (loadDiTRun env).2 = false then ((loadDiTRun env).1, .err .loadFail)
  else if env.ditTensorsOk = false then
    ((loadDiTRun env).1 ++ unloadDiTEvents, .err .slotFail)
  else
    match (ditLoopRun env env.steps 0).2 with
    | some e =>
      ((loadDiTRun env).1 ++ (ditLoopRun env env.steps 0).1, .err e)
    | none =>
      if env.cancelBeforeAE then
        ((loadDiTRun env).1 ++ (ditLoopRun env env.steps 0).1
          ++ unloadDiTEvents ++ [.storeProgress (85/100), .checkCancel true],
         .err .cancelled)
      else
        ((loadDiTRun env).1 ++ (ditLoopRun env env.steps 0).1
          ++ unloadDiTEvents ++ [.storeProgress (85/100), .checkCancel false]
          ++ (phase3Run env).1, (phase3Run env).2)

/-- Phase 1 of `generate()` (lines 869-1089): load T5, bind inputs,
store progress 0.05, invoke, capture outputs, unload T5, store progress
0.10, check the cancel flag, then run phase 2. -/
def phase1Run (env : GenEnv) : List Ev × GenOutcome :=
  if (loadT5Run env).2 = false then ((loadT5Run env).1, .err .loadFail)
  else if env.t5BindOk = false then
    ((loadT5Run env).1 ++ unloadT5Events, .err .bindFail)
  else if env.t5InvokeOk = false then
    ((loadT5Run env).1 ++ [.storeProgress (5/100), .invoke .t5 0]
      ++ unloadT5Events, .err .invokeFail)
  else if env.t5CrossAttnFound = false then
    ((loadT5Run env).1 ++ [.storeProgress (5/100), .invoke .t5 0]
      ++ unloadT5Events, .err .slotFail)
  else if env.cancelAfterT5 then
    ((loadT5Run env).1 ++ [.storeProgress (5/100), .invoke .t5 0]
      ++ unloadT5Events ++ [.storeProgress (10/100), .checkCancel true],
     .err .cancelled)
  else
    ((loadT5Run env).1 ++ [.storeProgress (5/100), .invoke .t5 0]
      ++ unloadT5Events ++ [.storeProgress (10/100), .checkCancel false]
      ++ (phase2Run env).1, (phase2Run env).2)

/-- The whole `generate()` call: after acquiring the generation lock it
stores `progress = 0.0` and `cancelled = false` (lines 832-833), reads
the string parameters, stores progress 0.02, then runs the three
phases. -/
def generateRun (env : GenEnv) : List Ev × GenOutcome :=
  if env.stringsOk = false then
    ([.storeProgress 0, .storeCancelled false], .err .paramsNull)
  else
    ([.storeProgress 0, .storeCancelled false, .storeProgress (2/100)]
      ++ (phase1Run env).1, (phase1Run env).2)

/-- The call as entered with the handle's current `cancelled` value.
The value is dead on arrival: the unconditional
`handle->cancelled.store(false)` at line 833 runs before any read of
the flag, so the run does not depend on it. -/
def generateRunEntry (entryCancelled : Bool) (env : GenEnv) :
    List Ev × GenOutcome :=
  generateRun env

/-- Whether an event changes the held-resource state. -/
def evMutates : Ev → Bool
  | .acq _ => true
  | .rel _ => true
  | _ => false

/- ------------------------------------------------------------------ -/
/- Concrete environments for witnesses.                                -/
/- ------------------------------------------------------------------ -/

/-- Environment in which every step of `generate()` succeeds:
CPU-only run, XNNPACK delegates attach, one diffusion step, no
cancellation. -/
def allOkEnv : GenEnv where
  stringsOk := true
  tryGpu := false
  t5BuildOk := true
  t5InterpOk := true
  t5XnnOk := true
  t5AllocOk := true
  t5BindOk := true
  t5InvokeOk := true
  t5CrossAttnFound := true
  cancelAfterT5 := false
  ditBuildOk := true
  ditInterpOk := true
  ditGpuOk := false
  ditXnnOk := true
  ditAllocOk := true
  ditTensorsOk := true
  steps := 1
  cancelAtStep := fun _ => false
  ditInvokeOk := fun _ => true
  cancelBeforeAE := false
  aeBuildOk := true
  aeInterpOk := true
  aeGpuOk := false
  aeXnnOk := true
  aeAllocOk := true
  latentMatches := true
  aeInvokeOk := true
  aeOutOk := true
  saveOk := true

/-- Environment in which the DiT `AllocateTensors` call fails (after
the model file, the interpreter and a delegate were acquired). -/
def envDitAllocFail : GenEnv := { allOkEnv with ditAllocOk := false }

/- ------------------------------------------------------------------ -/
/- Outcome-level lemmas for the cancellation and shape-mismatch
   claims.                                                             -/
/- ------------------------------------------------------------------ -/

/-- Success of the whole T5 phase up to the post-unload checkpoint. -/
def T5PhaseOk (env : GenEnv) : Prop :=
  env.stringsOk = true ∧ env.t5BuildOk = true ∧ env.t5InterpOk = true ∧
  env.t5AllocOk = true ∧ env.t5BindOk = true ∧ env.t5InvokeOk = true ∧
  env.t5CrossAttnFound = true

/-- Success of the DiT load steps. -/
def DiTLoadOk (env : GenEnv) : Prop :=
  env.ditBuildOk = true ∧ env.ditInterpOk = true ∧ env.ditAllocOk = true

/-- Success of the AutoEncoder load steps. -/
def AELoadOk (env : GenEnv) : Prop :=
  env.aeBuildOk = true ∧ env.aeInterpOk = true ∧ env.aeAllocOk = true

/-- The conditioning copy of lines 1140-1152: when the T5 cross-attention
buffer size equals the DiT tensor size the buffer is copied whole;
otherwise `min(buffer, expected)` elements are copied and any remaining
tensor space is zero-filled.  The result is the DiT `cross_attn` tensor
content; there is no failure branch. -/
def dit_crossattn_copy (buf : List ℝ) (expected : ℕ) : List ℝ :=
  if buf.length = expected then buf
  else buf.take (min buf.length expected)
    ++ List.replicate (expected - buf.length) 0

/-- Environment cancelled at the post-encoder checkpoint. -/
def envCancelT5 : GenEnv := { allOkEnv with cancelAfterT5 := true }

/-- Environment cancelled at the check before diffusion step 1 of 2. -/
def envCancelStep : GenEnv :=
  { allOkEnv with steps := 2, cancelAtStep := fun j => j == 1 }

/-- Environment cancelled at the pre-decoder checkpoint. -/
def envCancelAE : GenEnv := { allOkEnv with cancelBeforeAE := true }

/-- Environment in which the latent size check fails. -/
def envLatentMismatch : GenEnv := { allOkEnv with latentMatches := false }

/- ------------------------------------------------------------------ -/
/- Generic list helpers used by the numeric claims.                    -/
/- ------------------------------------------------------------------ -/

/-- Elementwise view of `List.zipWith` through `getD`. -/
theorem zipWith_getD_eq (f : ℝ → ℝ → ℝ) :
    ∀ (l₁ l₂ : List ℝ) (i : ℕ), i < l₁.length → i < l₂.length →
      (List.zipWith f l₁ l₂).getD i 0 = f (l₁.getD i 0) (l₂.getD i 0) := by
  intro l₁
  induction l₁ with
  | nil => intro l₂ i h₁ _; simp at h₁
  | cons a t ih =>
    intro l₂ i h₁ h₂
    cases l₂ with
    | nil => simp at h₂
    | cons b t₂ =>
      cases i with
      | zero => simp [List.getD]
      | succ j =>
        simp only [List.zipWith, List.getD_cons_succ]
        exact ih t₂ j (by simpa using h₁) (by simpa using h₂)

/-- When `next_t = 0`, the re-noising `zipWith` is the identity on its
first argument (as long as the noise list is at least as long). -/
theorem zipWith_renoise_zero :
    ∀ (l₁ l₂ : List ℝ), l₁.length ≤ l₂.length →
      List.zipWith (fun d n => (1 - (0:ℝ)) * d + 0 * n) l₁ l₂ = l₁ := by
  intro l₁
  induction l₁ with
  | nil => intro l₂ _; simp
  | cons a t ih =>
    intro l₂ h
    cases l₂ with
    | nil => simp at h
    | cons b t₂ =>
      simp only [List.zipWith, List.cons.injEq]
      exact ⟨by ring, ih t₂ (by simpa using h)⟩

/- ------------------------------------------------------------------ -/
/- Claim C3: the ping-pong sampler step.                               -/
/- ------------------------------------------------------------------ -/

/-- C3: one `sampler_ping_pong` step computes
`denoised[i] = state[i] - cur_t * pred[i]` and then
`state[i] = (1 - next_t) * denoised[i] + next_t * noise[i]` for every
element, and when `next_t = 0` the updated state equals the denoised
vector exactly, regardless of the drawn noise values. -/
theorem c3_ping_pong_step (state pred noise : List ℝ) (cur_t next_t : ℝ)
    (hp : pred.length = state.length) (hn : noise.length = state.length) :
    (∀ i, i < state.length →
        (sampler_denoised state pred cur_t).getD i 0
          = state.getD i 0 - cur_t * pred.getD i 0) ∧
    (∀ i, i < state.length →
        (sampler_ping_pong state pred noise cur_t next_t).getD i 0
          = (1 - next_t) * (state.getD i 0 - cur_t * pred.getD i 0)
            + next_t * noise.getD i 0) ∧
    (next_t = 0 →
        sampler_ping_pong state pred noise cur_t next_t
          = sampler_denoised state pred cur_t) := by
  have hd : (sampler_denoised state pred cur_t).length = state.length := by
    simp [sampler_denoised, hp]
  refine ⟨?_, ?_, ?_⟩
  · intro i hi
    exact zipWith_getD_eq _ state pred i hi (hp ▸ hi)
  · intro i hi
    have h1 : (sampler_ping_pong state pred noise cur_t next_t).getD i 0
        = (1 - next_t) * (sampler_denoised state pred cur_t).getD i 0
          + next_t * noise.getD i 0 :=
      zipWith_getD_eq _ _ noise i (hd ▸ hi) (hn ▸ hi)
    have h2 : (sampler_denoised state pred cur_t).getD i 0
        = state.getD i 0 - cur_t * pred.getD i 0 :=
      zipWith_getD_eq _ state pred i hi (hp ▸ hi)
    rw [h1, h2]
  · intro h0
    subst h0
    exact zipWith_renoise_zero _ noise (by rw [hd, hn])

/-- Witness for C3 at concrete inputs. -/
theorem c3_ping_pong_step_witness :
    sampler_ping_pong [2, 3] [1, 1] [5, 7] (1/2) 0
      = sampler_denoised [2, 3] [1, 1] (1/2) :=
  (c3_ping_pong_step [2, 3] [1, 1] [5, 7] (1/2) 0 rfl rfl).2.2 rfl

/- ------------------------------------------------------------------ -/
/- Claim C8: parameter clamping.                                       -/
/- ------------------------------------------------------------------ -/

/-- C8: `generate()` clamps the duration into [0.5, 11.0] (a 0.2 s
request proceeds with 0.5 s) and the step count into [1, 100], before
any stage runs; the clamped values are always in range, so out-of-range
parameters never make the call fail (the code has no validity branch on
these parameters). -/
theorem c8_param_clamping :
    (∀ d : ℝ, 0.5 ≤ clamp_duration d ∧ clamp_duration d ≤ 11) ∧
    clamp_duration 0.2 = 0.5 ∧
    (∀ n : ℤ, 1 ≤ clamp_steps n ∧ clamp_steps n ≤ 100) ∧
    clamp_steps 0 = 1 ∧ clamp_steps 1000 = 100 := by
  refine ⟨fun d => ⟨le_max_left _ _, ?_⟩, ?_, fun n => ⟨le_max_left _ _, ?_⟩, ?_, ?_⟩
  · exact max_le (by norm_num) (min_le_left _ _)
  · have h : min (11:ℝ) 0.2 = 0.2 := min_eq_right (by norm_num)
    rw [clamp_duration, h]; exact max_eq_left (by norm_num)
  · exact max_le (by norm_num) (min_le_left _ _)
  · rfl
  · rfl

/- ------------------------------------------------------------------ -/
/- Claim C9: the logsnr_max selection at the boundary.                 -/
/- ------------------------------------------------------------------ -/

/-- C9: with the maximum sigma equal to `k_sigma_max = 1.0` (as
`generate()` always uses), `logsnr_max` equals the constant `-6.0`
exactly; the logarithmic branch is taken only when the maximum sigma is
strictly less than 1. -/
theorem c9_logsnr_boundary :
    logsnr_max_of k_sigma_max = k_logsnr_max ∧
    (∀ σ : ℝ, ¬ σ < 1 → logsnr_max_of σ = k_logsnr_max) ∧
    (∀ σ : ℝ, σ < 1 →
        logsnr_max_of σ = Real.log ((1 - σ) / σ + 1e-6)) := by
  refine ⟨?_, fun σ h => ?_, fun σ h => ?_⟩
  · simp [logsnr_max_of, k_sigma_max]
  · simp [logsnr_max_of, h]
  · simp [logsnr_max_of, h]

/-- Witness for C9 at concrete inputs on both sides of the boundary. -/
theorem c9_logsnr_boundary_witness :
    logsnr_max_of 1 = k_logsnr_max ∧
    logsnr_max_of (1/2) = Real.log ((1 - 1/2) / (1/2) + 1e-6) :=
  ⟨c9_logsnr_boundary.2.1 1 (by norm_num),
   c9_logsnr_boundary.2.2 (1/2) (by norm_num)⟩

/- ------------------------------------------------------------------ -/
/- Claim C2: the noise schedule.                                       -/
/- ------------------------------------------------------------------ -/

/-- Index view of the `fill_sigmas` array. -/
theorem fill_sigmas_getD (sz : ℕ) (start endv sm : ℝ) (i : ℕ) (h : i < sz) :
    (fill_sigmas sz start endv sm).getD i 0
      = fill_sigmas_val sz start endv sm i := by
  simp [fill_sigmas, List.getD_eq_getElem?_getD, List.getElem?_map,
        List.getElem?_range, h]

/-- Closed form of the cumulative linspace. -/
theorem linspace_val_eq (start step : ℝ) :
    ∀ i : ℕ, linspace_val start step i = start + i * step := by
  intro i
  induction i with
  | zero => simp [linspace_val]
  | succ j ih =>
    rw [linspace_val, ih]
    push_cast
    ring

/-- The logistic map is strictly antitone. -/
theorem sigmoid_strict_anti {x y : ℝ} (h : x < y) :
    1 / (1 + Real.exp y) < 1 / (1 + Real.exp x) := by
  have hx : 0 < 1 + Real.exp x := by positivity
  exact one_div_lt_one_div_of_lt hx (add_lt_add_left (Real.exp_lt_exp.mpr h) 1)

/-- The logistic image of `logsnr_max_of σ` is at most `σ` on `(0, 1]`. -/
theorem sigmoid_logsnr_le (σ : ℝ) (h0 : 0 < σ) (h1 : σ ≤ 1) :
    1 / (1 + Real.exp (logsnr_max_of σ)) ≤ σ := by
  by_cases hlt : σ < 1
  · rw [logsnr_max_of, if_pos hlt]
    have hq : (0:ℝ) < (1 - σ) / σ := div_pos (by linarith) h0
    have hA : (0:ℝ) < (1 - σ) / σ + 1e-6 := by positivity
    rw [Real.exp_log hA]
    rw [div_le_iff (by positivity)]
    have hkey : σ * ((1 - σ) / σ) = 1 - σ := by field_simp
    nlinarith [hkey]
  · have hσ : σ = 1 := le_antisymm h1 (not_lt.mp hlt)
    subst hσ
    rw [logsnr_max_of, if_neg (lt_irrefl 1)]
    rw [div_le_one (by positivity)]
    have := Real.exp_pos k_logsnr_max
    linarith

/-- C2 (amended): for every step count `N ≥ 1` and maximum sigma in
`(0, 1]` whose derived log-SNR start `logsnr_max_of σ` is below the
linspace end value `2.0` (true in particular for `σ = 1`, the only
value `generate()` uses), the schedule has exactly `N+1` values, starts
at `σ` exactly, ends at `0.0` exactly, keeps every intermediate value
strictly inside `(0, σ)`, and is strictly decreasing.  (Without the
log-SNR side condition the linspace runs upward and the claim fails;
see the counterexample.) -/
theorem c2_noise_schedule (N : ℕ) (σ : ℝ) (hN : 1 ≤ N) (h0 : 0 < σ)
    (h1 : σ ≤ 1) (hstart : logsnr_max_of σ < 2) :
    (noise_schedule N σ).length = N + 1 ∧
    (noise_schedule N σ).getD 0 0 = σ ∧
    (noise_schedule N σ).getD N 0 = 0 ∧
    (∀ i, 0 < i → i < N →
        0 < (noise_schedule N σ).getD i 0 ∧ (noise_schedule N σ).getD i 0 < σ) ∧
    (∀ i, i < N →
        (noise_schedule N σ).getD (i+1) 0 < (noise_schedule N σ).getD i 0) := by
  have hNR : (0:ℝ) < (N:ℝ) := by exact_mod_cast Nat.pos_of_ne_zero (by omega)
  set start := logsnr_max_of σ with hstartdef
  have hden : ((N + 1 : ℕ) : ℝ) - 1 = (N:ℝ) := by push_cast; ring
  set step := (2 - start) / (((N + 1 : ℕ) : ℝ) - 1) with hstepdef
  have hstep : 0 < step := by
    rw [hstepdef, hden]
    exact div_pos (by linarith) hNR
  have hval : ∀ i, i < N + 1 →
      (noise_schedule N σ).getD i 0 = fill_sigmas_val (N+1) start 2 σ i := by
    intro i hi
    exact fill_sigmas_getD (N+1) start 2 σ i hi
  have hmid : ∀ i, 0 < i → i < N →
      (noise_schedule N σ).getD i 0
        = 1 / (1 + Real.exp (start + (i:ℝ) * step)) := by
    intro i hip hiN
    rw [hval i (by omega), fill_sigmas_val, if_neg (by omega),
        if_neg (by omega), linspace_val_eq]
  have hsig_le : 1 / (1 + Real.exp start) ≤ σ := sigmoid_logsnr_le σ h0 h1
  have hshift : ∀ i : ℕ, 1 ≤ i → start < start + (i:ℝ) * step := by
    intro i hi
    have h1i : (1:ℝ) ≤ (i:ℝ) := by exact_mod_cast hi
    nlinarith
  have hmidlt : ∀ i, 0 < i → i < N → (noise_schedule N σ).getD i 0 < σ := by
    intro i hip hiN
    rw [hmid i hip hiN]
    calc 1 / (1 + Real.exp (start + (i:ℝ) * step))
        < 1 / (1 + Real.exp start) := sigmoid_strict_anti (hshift i hip)
      _ ≤ σ := hsig_le
  have hmidpos : ∀ i, 0 < i → i < N → 0 < (noise_schedule N σ).getD i 0 := by
    intro i hip hiN
    rw [hmid i hip hiN]
    positivity
  refine ⟨?_, ?_, ?_, fun i hip hiN => ⟨hmidpos i hip hiN, hmidlt i hip hiN⟩, ?_⟩
  · simp [noise_schedule, fill_sigmas]
  · rw [hval 0 (by omega), fill_sigmas_val, if_pos rfl]
  · rw [hval N (by omega), fill_sigmas_val, if_neg (by omega),
        if_pos (by omega), k_sigma_min]
  · intro i hiN
    rcases Nat.eq_zero_or_pos i with hi0 | hip
    · subst hi0
      have h00 : (noise_schedule N σ).getD 0 0 = σ := by
        rw [hval 0 (by omega), fill_sigmas_val, if_pos rfl]
      rw [h00]
      rcases Nat.lt_or_ge 1 N with hN2 | hN1
      · exact hmidlt 1 (by omega) hN2
      · have hNeq : N = 1 := by omega
        subst hNeq
        rw [hval 1 (by omega), fill_sigmas_val, if_neg (by omega),
            if_pos (by omega), k_sigma_min]
        exact h0
    · rcases Nat.lt_or_ge (i+1) N with hlt | hge
      · rw [hmid i hip hiN, hmid (i+1) (by omega) hlt]
        apply sigmoid_strict_anti
        push_cast
        nlinarith
      · have hieq : i + 1 = N := by omega
        rw [hieq, hval N (by omega), fill_sigmas_val, if_neg (by omega),
            if_pos (by omega), k_sigma_min]
        exact hmidpos i hip (by omega)

/-- Witness for the amended C2 at `N = 1`, `σ = 1`. -/
theorem c2_noise_schedule_witness :
    (noise_schedule 1 1).length = 2 ∧
    (noise_schedule 1 1).getD 0 0 = 1 ∧
    (noise_schedule 1 1).getD 1 0 = 0 := by
  have h := c2_noise_schedule 1 1 le_rfl one_pos le_rfl
    (by norm_num [logsnr_max_of, k_logsnr_max])
  exact ⟨h.1, h.2.1, h.2.2.1⟩

/-- Counterexample to C2 as stated: at `N = 2`, `σmax = 1/100` (which is
in `(0,1]`), the intermediate schedule value exceeds `σmax` — so it is
not inside `(0, σmax)` — and the sequence is not decreasing at the first
pair. -/
theorem c2_noise_schedule_counterexample :
    1 ≤ 2 ∧ (0:ℝ) < 1/100 ∧ (1/100:ℝ) ≤ 1 ∧
    (noise_schedule 2 (1/100)).getD 0 0 = 1/100 ∧
    ¬ ((noise_schedule 2 (1/100)).getD 1 0
        < (noise_schedule 2 (1/100)).getD 0 0) ∧
    ¬ ((noise_schedule 2 (1/100)).getD 1 0 < 1/100) := by
  have hstart : logsnr_max_of (1/100) = Real.log (99 + 1e-6) := by
    rw [logsnr_max_of, if_pos (by norm_num)]
    norm_num
  have hA : (0:ℝ) < 99 + 1e-6 := by norm_num
  have h0 : (noise_schedule 2 (1/100)).getD 0 0 = 1/100 := by
    rw [noise_schedule, fill_sigmas_getD _ _ _ _ 0 (by omega),
        fill_sigmas_val, if_pos rfl]
  have hx1 : (noise_schedule 2 (1/100)).getD 1 0
      = 1 / (1 + Real.exp (Real.log (99 + 1e-6)
          + (2 - Real.log (99 + 1e-6)) / (((3:ℕ):ℝ) - 1))) := by
    rw [noise_schedule, fill_sigmas_getD _ _ _ _ 1 (by omega),
        fill_sigmas_val, if_neg (by omega), if_neg (by omega), hstart]
    rw [linspace_val, linspace_val]
  have hexp2 : Real.exp 2 < 7.39 := by
    have h1 := Real.exp_one_lt_d9
    have h2 : Real.exp 2 = Real.exp 1 * Real.exp 1 := by
      rw [show (2:ℝ) = 1 + 1 by norm_num, Real.exp_add]
    nlinarith [Real.exp_pos 1]
  have hlog100 : Real.log 100 + 2 ≤ 2 * Real.log 99 := by
    have he : Real.exp (Real.log 100 + 2) ≤ Real.exp (2 * Real.log 99) := by
      rw [Real.exp_add, Real.exp_log (by norm_num : (0:ℝ) < 100)]
      rw [two_mul, Real.exp_add, Real.exp_log (by norm_num : (0:ℝ) < 99)]
      nlinarith [Real.exp_pos 2]
    exact Real.exp_le_exp.mp he
  have hstart_lt : Real.log (99 + 1e-6) < Real.log 100 :=
    Real.log_lt_log hA (by norm_num)
  have hx_lt : Real.log (99 + 1e-6)
      + (2 - Real.log (99 + 1e-6)) / (((3:ℕ):ℝ) - 1) < Real.log 99 := by
    have h3 : (((3:ℕ):ℝ) - 1) = 2 := by norm_num
    rw [h3]
    linarith
  have hexp_lt : Real.exp (Real.log (99 + 1e-6)
      + (2 - Real.log (99 + 1e-6)) / (((3:ℕ):ℝ) - 1)) < 99 := by
    calc Real.exp _ < Real.exp (Real.log 99) := Real.exp_lt_exp.mpr hx_lt
      _ = 99 := Real.exp_log (by norm_num)
  have hgt : (1:ℝ)/100 < (noise_schedule 2 (1/100)).getD 1 0 := by
    rw [hx1]
    rw [div_lt_div_iff (by norm_num) (by positivity)]
    nlinarith [Real.exp_pos (Real.log (99 + 1e-6)
      + (2 - Real.log (99 + 1e-6)) / (((3:ℕ):ℝ) - 1))]
  refine ⟨by omega, by norm_num, by norm_num, h0, ?_, ?_⟩
  · rw [h0]; exact not_lt.mpr (le_of_lt hgt)
  · exact not_lt.mpr (le_of_lt hgt)

/- ------------------------------------------------------------------ -/
/- Claim C7: WAV serialization byte layout.                            -/
/- ------------------------------------------------------------------ -/

/-- Unfolding one sample pair of the data section. -/
theorem wav_samples_succ (l r : List ℝ) (n : ℕ) :
    wav_samples l r (n + 1)
      = wav_samples l r n
        ++ [WavField.f32 (l.getD n 0), WavField.f32 (r.getD n 0)] := by
  simp [wav_samples, List.range_succ]

/-- The data section of `n` sample pairs occupies `n * 2 * 4` bytes. -/
theorem wav_samples_bytes (l r : List ℝ) :
    ∀ n : ℕ, wavBytesTotal (wav_samples l r n) = n * 2 * 4 := by
  intro n
  induction n with
  | zero => rfl
  | succ m ih =>
    rw [wav_samples_succ]
    simp only [wavBytesTotal, List.map_append, List.sum_append] at *
    simp [wavFieldBytes, ih]
    ring

/-- The data section of `n` sample pairs holds `2 * n` fields. -/
theorem wav_samples_length (l r : List ℝ) :
    ∀ n : ℕ, (wav_samples l r n).length = 2 * n := by
  intro n
  induction n with
  | zero => rfl
  | succ m ih =>
    rw [wav_samples_succ]
    simp [ih]
    omega

/-- C7: `save_as_wav` writes the 44-byte header — RIFF chunk size
`44 + n*2*4 - 8`, IEEE-float format code 3, 2 channels, sample rate
44100, byte rate `44100*2*4 = 352800`, block align `2*4 = 8`, 32 bits
per sample, data chunk size `n*2*4` — followed by `n` interleaved
left/right sample pairs, for a total of exactly `44 + n*2*4` bytes;
and `generate()` passes the sample count
`min(floor(duration * 44100), decoder samples per channel)`, hence
exactly `duration * 44100` samples per channel (and file size
`44 + duration*44100*2*4`) whenever the decoder output is long enough. -/
theorem c7_wav_serialization :
    (∀ (l r : List ℝ) (n : ℕ),
      save_as_wav l r n
        = [WavField.tag "RIFF",
           WavField.u32 (44 + (n : ℤ) * 2 * 4 - 8),
           WavField.tag "WAVE",
           WavField.tag "fmt ",
           WavField.u32 16,
           WavField.u16 3,
           WavField.u16 2,
           WavField.u32 44100,
           WavField.u32 352800,
           WavField.u16 8,
           WavField.u16 32,
           WavField.tag "data",
           WavField.u32 ((n : ℤ) * 2 * 4)]
          ++ wav_samples l r n ∧
      (wav_samples l r n).length = 2 * n ∧
      wavBytesTotal (save_as_wav l r n) = 44 + n * 2 * 4) ∧
    (∀ (d : ℝ) (total m : ℕ), 0.5 ≤ d → d ≤ 11 →
      d * 44100 = (m : ℝ) → m ≤ total →
      generate_num_samples d total = m ∧
      ∀ l r : List ℝ,
        wavBytesTotal (save_as_wav l r (generate_num_samples d total))
          = 44 + m * 2 * 4) := by
  have hbytes : ∀ (l r : List ℝ) (n : ℕ),
      wavBytesTotal (save_as_wav l r n) = 44 + n * 2 * 4 := by
    intro l r n
    simp only [save_as_wav, wavBytesTotal, List.map_append, List.sum_append]
    have := wav_samples_bytes l r n
    simp only [wavBytesTotal] at this
    rw [this]
    simp [wavFieldBytes]
  refine ⟨fun l r n => ⟨?_, wav_samples_length l r n, hbytes l r n⟩,
          fun d total m h05 h11 hm htot => ⟨?_, fun l r => ?_⟩⟩
  · simp [save_as_wav, k_audio_sr, k_audio_num_channels, k_bits_per_sample]
  · have hclamp : clamp_duration d = d := by
      rw [clamp_duration, min_eq_right h11, max_eq_right h05]
    rw [generate_num_samples, hclamp, hm]
    rw [Nat.floor_natCast]
    exact min_eq_left htot
  · have hclamp : clamp_duration d = d := by
      rw [clamp_duration, min_eq_right h11, max_eq_right h05]
    rw [generate_num_samples, hclamp, hm, Nat.floor_natCast, min_eq_left htot]
    exact hbytes l r m

/-- Witness for C7 at `duration = 2.0`, decoder output 176400 samples:
exactly `2.0 * 44100 = 88200` samples per channel and
`44 + 88200*2*4` bytes. -/
theorem c7_wav_serialization_witness :
    generate_num_samples 2 176400 = 88200 ∧
    wavBytesTotal (save_as_wav [] [] (generate_num_samples 2 176400))
      = 44 + 88200 * 2 * 4 := by
  have h := c7_wav_serialization.2 2 176400 88200
    (by norm_num) (by norm_num) (by norm_num) (by norm_num)
  exact ⟨h.1, h.2 [] []⟩

/- ------------------------------------------------------------------ -/
/- Generic facts about event traces.                                   -/
/- ------------------------------------------------------------------ -/

/-- The start state is always in a `scanl` trace. -/
theorem head_mem_scanl {α β : Type} (f : α → β → α) (a : α) (l : List β) :
    a ∈ List.scanl f a l := by
  cases l <;> simp [List.scanl]

/-- Decomposition of a `scanl` trace over an append. -/
theorem mem_scanl_append {α β : Type} (f : α → β → α) (a : α)
    (l₁ l₂ : List β) (x : α) :
    x ∈ List.scanl f a (l₁ ++ l₂)
      ↔ x ∈ List.scanl f a l₁ ∨ x ∈ List.scanl f (List.foldl f a l₁) l₂ := by
  induction l₁ generalizing a with
  | nil =>
    simp only [List.nil_append, List.scanl_nil, List.foldl_nil,
               List.mem_singleton]
    constructor
    · exact Or.inr
    · rintro (rfl | h)
      · exact head_mem_scanl f x l₂
      · exact h
  | cons b t ih =>
    simp only [List.cons_append, List.scanl_cons, List.foldl_cons,
               List.mem_cons, List.nil_append]
    rw [ih]
    tauto

/-- Non-mutating event lists leave the state unchanged. -/
theorem foldl_applyEv_nomutate :
    ∀ (l : List Ev) (s : Finset Res),
      (∀ e ∈ l, evMutates e = false) → List.foldl applyEv s l = s := by
  intro l
  induction l with
  | nil => intro s _; rfl
  | cons e t ih =>
    intro s h
    have he := h e (List.mem_cons_self _ _)
    have hs : applyEv s e = s := by
      cases e <;> simp [evMutates, applyEv] at he ⊢
    rw [List.foldl_cons, hs]
    exact ih s (fun e' he' => h e' (List.mem_cons_of_mem _ he'))

/-- One event preserves single-stage ownership of the held set. -/
theorem ownedBy_applyEv {m : Stage} {s : Finset Res} {e : Ev}
    (he : evOwner e = some m ∨ evOwner e = none) (hs : OwnedBy m s) :
    OwnedBy m (applyEv s e) := by
  cases e with
  | acq r =>
    intro x hx
    rcases Finset.mem_insert.mp hx with rfl | hx'
    · rcases he with h | h
      · exact Option.some.inj h
      · exact absurd h (by simp [evOwner])
    · exact hs x hx'
  | rel r => intro x hx; exact hs x (Finset.mem_of_mem_erase hx)
  | invoke m' i => exact hs
  | checkCancel b => exact hs
  | storeProgress q => exact hs
  | storeCancelled b => exact hs
  | saveWav => exact hs

/-- A segment whose events all touch stage `m` (or no stage) keeps
every intermediate state owned by `m`. -/
theorem owned_scanl {m : Stage} :
    ∀ (evs : List Ev) (s₀ : Finset Res),
      (∀ e ∈ evs, evOwner e = some m ∨ evOwner e = none) →
      OwnedBy m s₀ →
      ∀ s ∈ List.scanl applyEv s₀ evs, OwnedBy m s := by
  intro evs
  induction evs with
  | nil =>
    intro s₀ _ h₀ s hs
    simp [List.scanl_nil] at hs
    subst hs
    exact h₀
  | cons e t ih =>
    intro s₀ hall h₀ s hs
    rw [List.scanl_cons] at hs
    rcases List.mem_cons.mp hs with rfl | hs'
    · exact h₀
    · exact ih (applyEv s₀ e)
        (fun e' he' => hall e' (List.mem_cons_of_mem _ he'))
        (ownedBy_applyEv (hall e (List.mem_cons_self _ _)) h₀) s hs'

/-- Same statement for the final state. -/
theorem ownedBy_foldl {m : Stage} :
    ∀ (evs : List Ev) (s₀ : Finset Res),
      (∀ e ∈ evs, evOwner e = some m ∨ evOwner e = none) →
      OwnedBy m s₀ →
      OwnedBy m (List.foldl applyEv s₀ evs) := by
  intro evs
  induction evs with
  | nil => intro s₀ _ h₀; exact h₀
  | cons e t ih =>
    intro s₀ hall h₀
    rw [List.foldl_cons]
    exact ih (applyEv s₀ e)
      (fun e' he' => hall e' (List.mem_cons_of_mem _ he'))
      (ownedBy_applyEv (hall e (List.mem_cons_self _ _)) h₀)

/-- The empty state is owned by every stage. -/
theorem ownedBy_empty (m : Stage) : OwnedBy m (∅ : Finset Res) := by
  intro r hr
  simp at hr

/-- Single-stage ownership gives the at-most-one-stage property. -/
theorem atMostOne_of_ownedBy {m : Stage} {s : Finset Res}
    (h : OwnedBy m s) : AtMostOneStage s := by
  intro r₁ h₁ r₂ h₂
  rw [h r₁ h₁, h r₂ h₂]

/-- Membership split over appended segments. -/
theorem owner_append {m : Stage} {l₁ l₂ : List Ev}
    (h₁ : ∀ e ∈ l₁, evOwner e = some m ∨ evOwner e = none)
    (h₂ : ∀ e ∈ l₂, evOwner e = some m ∨ evOwner e = none) :
    ∀ e ∈ l₁ ++ l₂, evOwner e = some m ∨ evOwner e = none := by
  intro e he
  rcases List.mem_append.mp he with h | h
  · exact h₁ e h
  · exact h₂ e h

/-- Releasing all four DiT resources from a DiT-owned state empties it. -/
theorem unloadDiT_foldl_owned {s : Finset Res} (h : OwnedBy .dit s) :
    List.foldl applyEv s unloadDiTEvents = ∅ := by
  simp only [unloadDiTEvents, List.foldl_cons, List.foldl_nil, applyEv]
  ext r
  simp only [Finset.mem_erase, Finset.not_mem_empty, iff_false, not_and,
             ne_eq]
  intro hfile hinterp hxnn hgpu hmem
  obtain ⟨m, k⟩ := r
  have hm : m = Stage.dit := h (m, k) hmem
  subst hm
  cases k <;> simp_all

/-- Releasing all four AutoEncoder resources from an AE-owned state
empties it. -/
theorem unloadAE_foldl_owned {s : Finset Res} (h : OwnedBy .ae s) :
    List.foldl applyEv s unloadAEEvents = ∅ := by
  simp only [unloadAEEvents, List.foldl_cons, List.foldl_nil, applyEv]
  ext r
  simp only [Finset.mem_erase, Finset.not_mem_empty, iff_false, not_and,
             ne_eq]
  intro hfile hinterp hxnn hgpu hmem
  obtain ⟨m, k⟩ := r
  have hm : m = Stage.ae := h (m, k) hmem
  subst hm
  cases k <;> simp_all

/- ------------------------------------------------------------------ -/
/- Per-segment facts about the load/unload helpers.                    -/
/- ------------------------------------------------------------------ -/

/-- Every `unloadT5` event touches the T5 stage. -/
theorem unloadT5Events_owner :
    ∀ e ∈ unloadT5Events, evOwner e = some .t5 ∨ evOwner e = none := by
  decide

/-- Every `unloadDiT` event touches the DiT stage. -/
theorem unloadDiTEvents_owner :
    ∀ e ∈ unloadDiTEvents, evOwner e = some .dit ∨ evOwner e = none := by
  decide

/-- Every `unloadAutoEncoder` event touches the AE stage. -/
theorem unloadAEEvents_owner :
    ∀ e ∈ unloadAEEvents, evOwner e = some .ae ∨ evOwner e = none := by
  decide

/-- Every `loadT5` event touches the T5 stage. -/
theorem loadT5Run_owner (env : GenEnv) :
    ∀ e ∈ (loadT5Run env).1, evOwner e = some .t5 ∨ evOwner e = none := by
  cases h1 : env.t5BuildOk <;> cases h2 : env.t5InterpOk <;>
    cases h3 : env.t5AllocOk <;> cases h4 : env.t5XnnOk <;>
      simp [loadT5Run, t5XnnEvents, unloadT5Events, h1, h2, h3, h4, evOwner]

/-- Every `loadDiT` event touches the DiT stage. -/
theorem loadDiTRun_owner (env : GenEnv) :
    ∀ e ∈ (loadDiTRun env).1, evOwner e = some .dit ∨ evOwner e = none := by
  cases h1 : env.ditBuildOk <;> cases h2 : env.ditInterpOk <;>
    cases h3 : env.ditAllocOk <;> cases h4 : env.tryGpu <;>
      cases h5 : env.ditGpuOk <;> cases h6 : env.ditXnnOk <;>
        simp [loadDiTRun, ditDelegateEvents, unloadDiTEvents,
              h1, h2, h3, h4, h5, h6, evOwner]

/-- Every `loadAutoEncoder` event touches the AE stage. -/
theorem loadAERun_owner (env : GenEnv) :
    ∀ e ∈ (loadAERun env).1, evOwner e = some .ae ∨ evOwner e = none := by
  cases h1 : env.aeBuildOk <;> cases h2 : env.aeInterpOk <;>
    cases h3 : env.aeAllocOk <;> cases h4 : env.tryGpu <;>
      cases h5 : env.aeGpuOk <;> cases h6 : env.aeXnnOk <;>
        simp [loadAERun, aeDelegateEvents, unloadAEEvents,
              h1, h2, h3, h4, h5, h6, evOwner]

/-- A failed `loadT5` releases everything it acquired. -/
theorem loadT5Run_foldl_fail (env : GenEnv) (h : (loadT5Run env).2 = false) :
    List.foldl applyEv ∅ (loadT5Run env).1 = ∅ := by
  cases h1 : env.t5BuildOk <;> cases h2 : env.t5InterpOk <;>
    cases h3 : env.t5AllocOk <;> cases h4 : env.t5XnnOk <;>
      simp [loadT5Run, t5XnnEvents, unloadT5Events, h1, h2, h3, h4,
            applyEv] at h ⊢ <;> decide

/-- A failed `loadDiT` releases everything it acquired. -/
theorem loadDiTRun_foldl_fail (env : GenEnv)
    (h : (loadDiTRun env).2 = false) :
    List.foldl applyEv ∅ (loadDiTRun env).1 = ∅ := by
  cases h1 : env.ditBuildOk <;> cases h2 : env.ditInterpOk <;>
    cases h3 : env.ditAllocOk <;> cases h4 : env.tryGpu <;>
      cases h5 : env.ditGpuOk <;> cases h6 : env.ditXnnOk <;>
        simp [loadDiTRun, ditDelegateEvents, unloadDiTEvents,
              h1, h2, h3, h4, h5, h6, applyEv] at h ⊢ <;> decide

/-- A failed `loadAutoEncoder` releases everything it acquired. -/
theorem loadAERun_foldl_fail (env : GenEnv)
    (h : (loadAERun env).2 = false) :
    List.foldl applyEv ∅ (loadAERun env).1 = ∅ := by
  cases h1 : env.aeBuildOk <;> cases h2 : env.aeInterpOk <;>
    cases h3 : env.aeAllocOk <;> cases h4 : env.tryGpu <;>
      cases h5 : env.aeGpuOk <;> cases h6 : env.aeXnnOk <;>
        simp [loadAERun, aeDelegateEvents, unloadAEEvents,
              h1, h2, h3, h4, h5, h6, applyEv] at h ⊢ <;> decide

/-- A successful `loadT5` holds exactly the model file, the interpreter
and (when attached) the XNNPACK delegate. -/
theorem loadT5Run_foldl_ok (env : GenEnv) (h : (loadT5Run env).2 = true) :
    List.foldl applyEv ∅ (loadT5Run env).1
      = if env.t5XnnOk then
          {(Stage.t5, StageRes.modelFile), (Stage.t5, StageRes.interp),
           (Stage.t5, StageRes.xnnDelegate)}
        else
          {(Stage.t5, StageRes.modelFile), (Stage.t5, StageRes.interp)} := by
  cases h1 : env.t5BuildOk <;> cases h2 : env.t5InterpOk <;>
    cases h3 : env.t5AllocOk <;> cases h4 : env.t5XnnOk <;>
      simp [loadT5Run, t5XnnEvents, unloadT5Events, h1, h2, h3, h4,
            applyEv] at h ⊢ <;> decide

/-- Unloading T5 from either held-set empties it. -/
theorem unloadT5_foldl_held (env : GenEnv) :
    List.foldl applyEv
      (if env.t5XnnOk then
        {(Stage.t5, StageRes.modelFile), (Stage.t5, StageRes.interp),
         (Stage.t5, StageRes.xnnDelegate)}
       else
        {(Stage.t5, StageRes.modelFile), (Stage.t5, StageRes.interp)})
      unloadT5Events = ∅ := by
  cases h : env.t5XnnOk <;> simp [h, unloadT5Events, applyEv] <;> decide

/- ------------------------------------------------------------------ -/
/- Facts about the diffusion loop.                                     -/
/- ------------------------------------------------------------------ -/

/-- Every diffusion-loop event touches the DiT stage. -/
theorem ditLoopRun_owner (env : GenEnv) :
    ∀ (n i : ℕ), ∀ e ∈ (ditLoopRun env n i).1,
      evOwner e = some .dit ∨ evOwner e = none := by
  intro n
  induction n with
  | zero => intro i e he; simp [ditLoopRun] at he
  | succ m ih =>
    intro i e he
    rw [ditLoopRun] at he
    by_cases hc : env.cancelAtStep i
    · rw [if_pos hc] at he
      simp only [List.cons_append, List.nil_append, List.mem_cons,
                 unloadDiTEvents] at he
      rcases he with rfl | rfl | rfl | rfl | rfl | he'
      · simp [evOwner]
      · simp [evOwner]
      · simp [evOwner]
      · simp [evOwner]
      · simp [evOwner]
      · simp at he'
    · rw [if_neg hc] at he
      by_cases hv : env.ditInvokeOk i = false
      · rw [if_pos hv] at he
        simp only [List.cons_append, List.nil_append, List.mem_cons,
                   unloadDiTEvents] at he
        rcases he with rfl | rfl | rfl | rfl | rfl | rfl | he'
        · simp [evOwner]
        · simp [evOwner]
        · simp [evOwner]
        · simp [evOwner]
        · simp [evOwner]
        · simp [evOwner]
        · simp at he'
      · rw [if_neg hv] at he
        simp only [List.cons_append, List.nil_append, List.mem_cons] at he
        rcases he with rfl | rfl | rfl | he'
        · simp [evOwner]
        · simp [evOwner]
        · simp [evOwner]
        · exact ih (i + 1) e he'

/-- When the loop completes with no error its events do not change the
held-resource state. -/
theorem ditLoopRun_foldl_none (env : GenEnv) :
    ∀ (n i : ℕ) (s : Finset Res), (ditLoopRun env n i).2 = none →
      List.foldl applyEv s (ditLoopRun env n i).1 = s := by
  intro n
  induction n with
  | zero => intro i s _; rfl
  | succ m ih =>
    intro i s hout
    rw [ditLoopRun] at hout ⊢
    by_cases hc : env.cancelAtStep i
    · rw [if_pos hc] at hout; simp at hout
    · rw [if_neg hc] at hout ⊢
      by_cases hv : env.ditInvokeOk i = false
      · rw [if_pos hv] at hout; simp at hout
      · rw [if_neg hv] at hout ⊢
        show List.foldl applyEv s
          ([Ev.checkCancel false, Ev.invoke Stage.dit i,
            Ev.storeProgress (progressAtStep env i)]
            ++ (ditLoopRun env m (i + 1)).1) = s
        rw [List.foldl_append]
        have h3 : List.foldl applyEv s
            [Ev.checkCancel false, Ev.invoke Stage.dit i,
             Ev.storeProgress (progressAtStep env i)] = s := by
          apply foldl_applyEv_nomutate
          intro e he
          simp only [List.mem_cons, List.not_mem_nil, or_false] at he
          rcases he with rfl | rfl | rfl <;> rfl
        rw [h3]
        exact ih (i + 1) s hout

/-- When the loop exits with an error it has just run `unloadDiT`, so
its net effect on any state is that of `unloadDiT`. -/
theorem ditLoopRun_foldl_some (env : GenEnv) :
    ∀ (n i : ℕ) (s : Finset Res) (e : GenErr),
      (ditLoopRun env n i).2 = some e →
      List.foldl applyEv s (ditLoopRun env n i).1
        = List.foldl applyEv s unloadDiTEvents := by
  intro n
  induction n with
  | zero => intro i s e hout; simp [ditLoopRun] at hout
  | succ m ih =>
    intro i s e hout
    rw [ditLoopRun] at hout ⊢
    by_cases hc : env.cancelAtStep i
    · rw [if_pos hc] at hout ⊢
      rfl
    · rw [if_neg hc] at hout ⊢
      by_cases hv : env.ditInvokeOk i = false
      · rw [if_pos hv] at hout ⊢
        rfl
      · rw [if_neg hv] at hout ⊢
        show List.foldl applyEv s
          ([Ev.checkCancel false, Ev.invoke Stage.dit i,
            Ev.storeProgress (progressAtStep env i)]
            ++ (ditLoopRun env m (i + 1)).1)
          = List.foldl applyEv s unloadDiTEvents
        rw [List.foldl_append]
        have h3 : List.foldl applyEv s
            [Ev.checkCancel false, Ev.invoke Stage.dit i,
             Ev.storeProgress (progressAtStep env i)] = s := by
          apply foldl_applyEv_nomutate
          intro e' he
          simp only [List.mem_cons, List.not_mem_nil, or_false] at he
          rcases he with rfl | rfl | rfl <;> rfl
        rw [h3]
        exact ih (i + 1) s e hout

/- ------------------------------------------------------------------ -/
/- Phase-level invariants.                                             -/
/- ------------------------------------------------------------------ -/

/-- Every phase-3 event touches the AE stage. -/
theorem phase3Run_owner (env : GenEnv) :
    ∀ e ∈ (phase3Run env).1, evOwner e = some .ae ∨ evOwner e = none := by
  have hl := loadAERun_owner env
  have hu := unloadAEEvents_owner
  have h₁ : ∀ e ∈ [Ev.invoke Stage.ae 0],
      evOwner e = some .ae ∨ evOwner e = none := by decide
  have h₂ : ∀ e ∈ [Ev.invoke Stage.ae 0, Ev.storeProgress (95/100)],
      evOwner e = some .ae ∨ evOwner e = none := by
    intro e he
    simp only [List.mem_cons, List.not_mem_nil, or_false] at he
    rcases he with rfl | rfl
    · simp [evOwner]
    · simp [evOwner]
  have h₃ : ∀ e ∈ [Ev.invoke Stage.ae 0, Ev.storeProgress (95/100),
      Ev.saveWav], evOwner e = some .ae ∨ evOwner e = none := by
    intro e he
    simp only [List.mem_cons, List.not_mem_nil, or_false] at he
    rcases he with rfl | rfl | rfl
    · simp [evOwner]
    · simp [evOwner]
    · simp [evOwner]
  have h₄ : ∀ e ∈ [Ev.storeProgress 1],
      evOwner e = some .ae ∨ evOwner e = none := by
    intro e he
    simp only [List.mem_cons, List.not_mem_nil, or_false] at he
    subst he
    simp [evOwner]
  rw [phase3Run]
  cases hb : (loadAERun env).2 with
  | false => rw [if_pos rfl]; exact hl
  | true =>
    rw [if_neg (by simp)]
    cases h2 : env.latentMatches with
    | false => rw [if_pos rfl]; exact owner_append hl hu
    | true =>
      rw [if_neg (by simp)]
      cases h3 : env.aeInvokeOk with
      | false => rw [if_pos rfl]; exact owner_append (owner_append hl h₁) hu
      | true =>
        rw [if_neg (by simp)]
        cases h4 : env.aeOutOk with
        | false => rw [if_pos rfl]; exact owner_append (owner_append hl h₂) hu
        | true =>
          rw [if_neg (by simp)]
          cases h5 : env.saveOk with
          | false =>
            rw [if_pos rfl]; exact owner_append (owner_append hl h₃) hu
          | true =>
            rw [if_neg (by simp)]
            exact owner_append (owner_append (owner_append hl h₃) hu) h₄

/-- Every intermediate state of phase 3 is owned by the AE stage. -/
theorem phase3Run_states (env : GenEnv) :
    ∀ s ∈ List.scanl applyEv ∅ (phase3Run env).1, OwnedBy .ae s :=
  owned_scanl (phase3Run env).1 ∅ (phase3Run_owner env) (ownedBy_empty _)

/-- Phase 3 always ends with nothing held. -/
theorem phase3Run_final (env : GenEnv) :
    List.foldl applyEv ∅ (phase3Run env).1 = ∅ := by
  have hSae : OwnedBy .ae (List.foldl applyEv ∅ (loadAERun env).1) :=
    ownedBy_foldl (loadAERun env).1 ∅ (loadAERun_owner env) (ownedBy_empty _)
  have hmut₃ : ∀ e ∈ [Ev.invoke Stage.ae 0, Ev.storeProgress (95/100),
      Ev.saveWav], evMutates e = false := by
    intro e he
    simp only [List.mem_cons, List.not_mem_nil, or_false] at he
    rcases he with rfl | rfl | rfl <;> rfl
  rw [phase3Run]
  cases hb : (loadAERun env).2 with
  | false => rw [if_pos rfl]; exact loadAERun_foldl_fail env hb
  | true =>
    rw [if_neg (by simp)]
    cases h2 : env.latentMatches with
    | false =>
      rw [if_pos rfl]
      show List.foldl applyEv ∅ ((loadAERun env).1 ++ unloadAEEvents) = ∅
      rw [List.foldl_append]
      exact unloadAE_foldl_owned hSae
    | true =>
      rw [if_neg (by simp)]
      cases h3 : env.aeInvokeOk with
      | false =>
        rw [if_pos rfl]
        show List.foldl applyEv ∅
          (((loadAERun env).1 ++ [Ev.invoke Stage.ae 0]) ++ unloadAEEvents)
            = ∅
        rw [List.foldl_append, List.foldl_append]
        rw [foldl_applyEv_nomutate [Ev.invoke Stage.ae 0] _ (by decide)]
        exact unloadAE_foldl_owned hSae
      | true =>
        rw [if_neg (by simp)]
        cases h4 : env.aeOutOk with
        | false =>
          rw [if_pos rfl]
          show List.foldl applyEv ∅
            (((loadAERun env).1
              ++ [Ev.invoke Stage.ae 0, Ev.storeProgress (95/100)])
              ++ unloadAEEvents) = ∅
          have hmut₂ : ∀ e ∈ [Ev.invoke Stage.ae 0,
              Ev.storeProgress (95/100)], evMutates e = false := by
            intro e he
            simp only [List.mem_cons, List.not_mem_nil, or_false] at he
            rcases he with rfl | rfl <;> rfl
          rw [List.foldl_append, List.foldl_append]
          rw [foldl_applyEv_nomutate _ _ hmut₂]
          exact unloadAE_foldl_owned hSae
        | true =>
          rw [if_neg (by simp)]
          cases h5 : env.saveOk with
          | false =>
            rw [if_pos rfl]
            show List.foldl applyEv ∅
              (((loadAERun env).1
                ++ [Ev.invoke Stage.ae 0, Ev.storeProgress (95/100),
                    Ev.saveWav]) ++ unloadAEEvents) = ∅
            rw [List.foldl_append, List.foldl_append]
            rw [foldl_applyEv_nomutate _ _ hmut₃]
            exact unloadAE_foldl_owned hSae
          | true =>
            rw [if_neg (by simp)]
            show List.foldl applyEv ∅
              ((((loadAERun env).1
                ++ [Ev.invoke Stage.ae 0, Ev.storeProgress (95/100),
                    Ev.saveWav]) ++ unloadAEEvents)
                ++ [Ev.storeProgress 1]) = ∅
            rw [List.foldl_append, List.foldl_append, List.foldl_append]
            rw [foldl_applyEv_nomutate _ _ hmut₃]
            rw [unloadAE_foldl_owned hSae]
            rfl

/-- Positive form of a boolean hypothesis from a negated split. -/
theorem bool_ne_false {b : Bool} (h : ¬ b = false) : b = true := by
  cases b
  · exact absurd rfl h
  · rfl

/-- The empty state trivially has at most one stage resident. -/
theorem atMostOne_empty : AtMostOneStage (∅ : Finset Res) := by
  intro r₁ h₁
  simp at h₁

/-- Every intermediate state of phase 2 has at most one stage
resident. -/
theorem phase2Run_states (env : GenEnv) :
    ∀ s ∈ List.scanl applyEv ∅ (phase2Run env).1, AtMostOneStage s := by
  have hld := loadDiTRun_owner env
  have hlu := unloadDiTEvents_owner
  have hloop := ditLoopRun_owner env env.steps 0
  have hSdit : OwnedBy .dit (List.foldl applyEv ∅ (loadDiTRun env).1) :=
    ownedBy_foldl _ ∅ hld (ownedBy_empty _)
  have hcct : ∀ e ∈ [Ev.storeProgress (85/100), Ev.checkCancel true],
      evOwner e = some .dit ∨ evOwner e = none := by
    intro e he
    simp only [List.mem_cons, List.not_mem_nil, or_false] at he
    rcases he with rfl | rfl <;> simp [evOwner]
  have hccf : ∀ e ∈ [Ev.storeProgress (85/100), Ev.checkCancel false],
      evOwner e = some .dit ∨ evOwner e = none := by
    intro e he
    simp only [List.mem_cons, List.not_mem_nil, or_false] at he
    rcases he with rfl | rfl <;> simp [evOwner]
  unfold phase2Run
  split
  next hb =>
    intro s hs
    exact atMostOne_of_ownedBy (owned_scanl _ ∅ hld (ownedBy_empty _) s hs)
  next hb =>
    split
    next h2 =>
      intro s hs
      exact atMostOne_of_ownedBy
        (owned_scanl _ ∅ (owner_append hld hlu) (ownedBy_empty _) s hs)
    next h2 =>
      split
      next e heq =>
        intro s hs
        exact atMostOne_of_ownedBy
          (owned_scanl _ ∅ (owner_append hld hloop) (ownedBy_empty _) s hs)
      next heq =>
        split
        next hc =>
          intro s hs
          exact atMostOne_of_ownedBy
            (owned_scanl _ ∅
              (owner_append (owner_append (owner_append hld hloop) hlu) hcct)
              (ownedBy_empty _) s hs)
        next hc =>
          intro s hs
          rw [mem_scanl_append] at hs
          rcases hs with hs | hs
          · exact atMostOne_of_ownedBy
              (owned_scanl _ ∅
                (owner_append (owner_append (owner_append hld hloop) hlu)
                  hccf)
                (ownedBy_empty _) s hs)
          · have hfin : List.foldl applyEv ∅
                ((((loadDiTRun env).1 ++ (ditLoopRun env env.steps 0).1)
                  ++ unloadDiTEvents)
                  ++ [Ev.storeProgress (85/100), Ev.checkCancel false]) = ∅ := by
              rw [List.foldl_append, List.foldl_append, List.foldl_append,
                  ditLoopRun_foldl_none env env.steps 0 _ heq,
                  unloadDiT_foldl_owned hSdit]
              rfl
            rw [hfin] at hs
            exact atMostOne_of_ownedBy (phase3Run_states env s hs)

/-- Phase 2 always ends with nothing held. -/
theorem phase2Run_final (env : GenEnv) :
    List.foldl applyEv ∅ (phase2Run env).1 = ∅ := by
  have hSdit : OwnedBy .dit (List.foldl applyEv ∅ (loadDiTRun env).1) :=
    ownedBy_foldl _ ∅ (loadDiTRun_owner env) (ownedBy_empty _)
  unfold phase2Run
  split
  next hb => exact loadDiTRun_foldl_fail env hb
  next hb =>
    split
    next h2 =>
      show List.foldl applyEv ∅ ((loadDiTRun env).1 ++ unloadDiTEvents) = ∅
      rw [List.foldl_append]
      exact unloadDiT_foldl_owned hSdit
    next h2 =>
      split
      next e heq =>
        show List.foldl applyEv ∅
          ((loadDiTRun env).1 ++ (ditLoopRun env env.steps 0).1) = ∅
        rw [List.foldl_append,
            ditLoopRun_foldl_some env env.steps 0 _ e heq]
        exact unloadDiT_foldl_owned hSdit
      next heq =>
        split
        next hc =>
          show List.foldl applyEv ∅
            ((((loadDiTRun env).1 ++ (ditLoopRun env env.steps 0).1)
              ++ unloadDiTEvents)
              ++ [Ev.storeProgress (85/100), Ev.checkCancel true]) = ∅
          rw [List.foldl_append, List.foldl_append, List.foldl_append,
              ditLoopRun_foldl_none env env.steps 0 _ heq,
              unloadDiT_foldl_owned hSdit]
          rfl
        next hc =>
          show List.foldl applyEv ∅
            (((((loadDiTRun env).1 ++ (ditLoopRun env env.steps 0).1)
              ++ unloadDiTEvents)
              ++ [Ev.storeProgress (85/100), Ev.checkCancel false])
              ++ (phase3Run env).1) = ∅
          rw [List.foldl_append, List.foldl_append, List.foldl_append,
              List.foldl_append,
              ditLoopRun_foldl_none env env.steps 0 _ heq,
              unloadDiT_foldl_owned hSdit]
          exact phase3Run_final env

/-- Every intermediate state of phase 1 has at most one stage
resident. -/
theorem phase1Run_states (env : GenEnv) :
    ∀ s ∈ List.scanl applyEv ∅ (phase1Run env).1, AtMostOneStage s := by
  have hlo := loadT5Run_owner env
  have hlu := unloadT5Events_owner
  have hmid : ∀ e ∈ [Ev.storeProgress (5/100), Ev.invoke Stage.t5 0],
      evOwner e = some .t5 ∨ evOwner e = none := by
    intro e he
    simp only [List.mem_cons, List.not_mem_nil, or_false] at he
    rcases he with rfl | rfl <;> simp [evOwner]
  have hmidmut : ∀ e ∈ [Ev.storeProgress (5/100), Ev.invoke Stage.t5 0],
      evMutates e = false := by
    intro e he
    simp only [List.mem_cons, List.not_mem_nil, or_false] at he
    rcases he with rfl | rfl <;> rfl
  have htailt : ∀ e ∈ [Ev.storeProgress (10/100), Ev.checkCancel true],
      evOwner e = some .t5 ∨ evOwner e = none := by
    intro e he
    simp only [List.mem_cons, List.not_mem_nil, or_false] at he
    rcases he with rfl | rfl <;> simp [evOwner]
  have htailf : ∀ e ∈ [Ev.storeProgress (10/100), Ev.checkCancel false],
      evOwner e = some .t5 ∨ evOwner e = none := by
    intro e he
    simp only [List.mem_cons, List.not_mem_nil, or_false] at he
    rcases he with rfl | rfl <;> simp [evOwner]
  unfold phase1Run
  split
  next hb =>
    intro s hs
    exact atMostOne_of_ownedBy (owned_scanl _ ∅ hlo (ownedBy_empty _) s hs)
  next hb =>
    have hb' : (loadT5Run env).2 = true := bool_ne_false hb
    split
    next h2 =>
      intro s hs
      exact atMostOne_of_ownedBy
        (owned_scanl _ ∅ (owner_append hlo hlu) (ownedBy_empty _) s hs)
    next h2 =>
      split
      next h3 =>
        intro s hs
        exact atMostOne_of_ownedBy
          (owned_scanl _ ∅ (owner_append (owner_append hlo hmid) hlu)
            (ownedBy_empty _) s hs)
      next h3 =>
        split
        next h4 =>
          intro s hs
          exact atMostOne_of_ownedBy
            (owned_scanl _ ∅ (owner_append (owner_append hlo hmid) hlu)
              (ownedBy_empty _) s hs)
        next h4 =>
          split
          next h5 =>
            intro s hs
            exact atMostOne_of_ownedBy
              (owned_scanl _ ∅
                (owner_append (owner_append (owner_append hlo hmid) hlu)
                  htailt)
                (ownedBy_empty _) s hs)
          next h5 =>
            intro s hs
            rw [mem_scanl_append] at hs
            rcases hs with hs | hs
            · exact atMostOne_of_ownedBy
                (owned_scanl _ ∅
                  (owner_append (owner_append (owner_append hlo hmid) hlu)
                    htailf)
                  (ownedBy_empty _) s hs)
            · have hfin : List.foldl applyEv ∅
                  ((((loadT5Run env).1
                    ++ [Ev.storeProgress (5/100), Ev.invoke Stage.t5 0])
                    ++ unloadT5Events)
                    ++ [Ev.storeProgress (10/100), Ev.checkCancel false])
                    = ∅ := by
                rw [List.foldl_append, List.foldl_append, List.foldl_append,
                    loadT5Run_foldl_ok env hb',
                    foldl_applyEv_nomutate _ _ hmidmut,
                    unloadT5_foldl_held env]
                rfl
              rw [hfin] at hs
              exact phase2Run_states env s hs

/-- Phase 1 always ends with nothing held. -/
theorem phase1Run_final (env : GenEnv) :
    List.foldl applyEv ∅ (phase1Run env).1 = ∅ := by
  have hmidmut : ∀ e ∈ [Ev.storeProgress (5/100), Ev.invoke Stage.t5 0],
      evMutates e = false := by
    intro e he
    simp only [List.mem_cons, List.not_mem_nil, or_false] at he
    rcases he with rfl | rfl <;> rfl
  unfold phase1Run
  split
  next hb => exact loadT5Run_foldl_fail env hb
  next hb =>
    have hb' : (loadT5Run env).2 = true := bool_ne_false hb
    split
    next h2 =>
      show List.foldl applyEv ∅ ((loadT5Run env).1 ++ unloadT5Events) = ∅
      rw [List.foldl_append, loadT5Run_foldl_ok env hb',
          unloadT5_foldl_held env]
    next h2 =>
      split
      next h3 =>
        show List.foldl applyEv ∅
          (((loadT5Run env).1
            ++ [Ev.storeProgress (5/100), Ev.invoke Stage.t5 0])
            ++ unloadT5Events) = ∅
        rw [List.foldl_append, List.foldl_append,
            loadT5Run_foldl_ok env hb',
            foldl_applyEv_nomutate _ _ hmidmut,
            unloadT5_foldl_held env]
      next h3 =>
        split
        next h4 =>
          show List.foldl applyEv ∅
            (((loadT5Run env).1
              ++ [Ev.storeProgress (5/100), Ev.invoke Stage.t5 0])
              ++ unloadT5Events) = ∅
          rw [List.foldl_append, List.foldl_append,
              loadT5Run_foldl_ok env hb',
              foldl_applyEv_nomutate _ _ hmidmut,
              unloadT5_foldl_held env]
        next h4 =>
          split
          next h5 =>
            show List.foldl applyEv ∅
              ((((loadT5Run env).1
                ++ [Ev.storeProgress (5/100), Ev.invoke Stage.t5 0])
                ++ unloadT5Events)
                ++ [Ev.storeProgress (10/100), Ev.checkCancel true]) = ∅
            rw [List.foldl_append, List.foldl_append, List.foldl_append,
                loadT5Run_foldl_ok env hb',
                foldl_applyEv_nomutate _ _ hmidmut,
                unloadT5_foldl_held env]
            rfl
          next h5 =>
            show List.foldl applyEv ∅
              (((((loadT5Run env).1
                ++ [Ev.storeProgress (5/100), Ev.invoke Stage.t5 0])
                ++ unloadT5Events)
                ++ [Ev.storeProgress (10/100), Ev.checkCancel false])
                ++ (phase2Run env).1) = ∅
            rw [List.foldl_append, List.foldl_append, List.foldl_append,
                List.foldl_append,
                loadT5Run_foldl_ok env hb',
                foldl_applyEv_nomutate _ _ hmidmut,
                unloadT5_foldl_held env]
            exact phase2Run_final env

/-- Every intermediate state of a whole `generate()` call has at most
one stage resident. -/
theorem generateRun_states (env : GenEnv) :
    ∀ s ∈ statesOf (generateRun env).1, AtMostOneStage s := by
  unfold generateRun statesOf
  split
  next hb =>
    intro s hs
    simp [List.scanl, applyEv] at hs
    rcases hs with rfl | rfl | rfl <;> exact atMostOne_empty
  next hb =>
    intro s hs
    rw [mem_scanl_append] at hs
    rcases hs with hs | hs
    · simp [List.scanl, applyEv] at hs
      rcases hs with rfl | rfl | rfl | rfl <;> exact atMostOne_empty
    · exact phase1Run_states env s hs

/-- A whole `generate()` call always ends with nothing held. -/
theorem generateRun_final (env : GenEnv) :
    finalOf (generateRun env).1 = ∅ := by
  unfold generateRun finalOf
  split
  next hb => rfl
  next hb =>
    show List.foldl applyEv ∅
      ([Ev.storeProgress 0, Ev.storeCancelled false,
        Ev.storeProgress (2/100)] ++ (phase1Run env).1) = ∅
    rw [List.foldl_append]
    exact phase1Run_final env

/- ------------------------------------------------------------------ -/
/- Claim C1: the peak-memory invariant.                                -/
/- ------------------------------------------------------------------ -/

/-- C1: during every single call to `generate()`, at every point of its
execution at most one of the three stages (T5 encoder, DiT diffuser,
AutoEncoder decoder) has any of its resources — memory-mapped model,
interpreter, or delegate — loaded: every intermediate held-resource
state of the event trace contains resources of at most one stage, on
the success path and on every early-return path; in particular the
encoder is unloaded before the diffuser is loaded and the diffuser is
unloaded before the decoder is loaded. -/
theorem c1_peak_memory_invariant (env : GenEnv) :
    ∀ s ∈ statesOf (generateRun env).1, AtMostOneStage s :=
  generateRun_states env

/-- Witness for C1: in the all-success run, the state holding the T5
model file and interpreter occurs in the trace and has a single stage
resident. -/
theorem c1_peak_memory_invariant_witness :
    AtMostOneStage
      {(Stage.t5, StageRes.modelFile), (Stage.t5, StageRes.interp)} :=
  c1_peak_memory_invariant allOkEnv _ (by decide)

/- ------------------------------------------------------------------ -/
/- Claim C4: failures unwind every acquired resource.                  -/
/- ------------------------------------------------------------------ -/

/-- C4: whenever any step of a stage load (model file open, interpreter
build, delegate attachment, tensor allocation) or any later step of
`generate()` fails, the call returns a failure outcome and no stage is
left loaded: every model file, interpreter and delegate acquired by the
failed stage or a preceding stage has been released when the call
returns. -/
theorem c4_failure_unwinds (env : GenEnv)
    (h : (generateRun env).2 ≠ GenOutcome.ok) :
    (∃ e, (generateRun env).2 = GenOutcome.err e) ∧
    finalOf (generateRun env).1 = ∅ := by
  constructor
  · cases hout : (generateRun env).2 with
    | ok => exact absurd hout h
    | err e => exact ⟨e, rfl⟩
  · exact generateRun_final env

/-- Witness for C4: a DiT tensor-allocation failure yields an error
outcome with nothing left loaded. -/
theorem c4_failure_unwinds_witness :
    (∃ e, (generateRun envDitAllocFail).2 = GenOutcome.err e) ∧
    finalOf (generateRun envDitAllocFail).1 = ∅ :=
  c4_failure_unwinds envDitAllocFail (by decide)

/- ------------------------------------------------------------------ -/
/- Claim C10: the entry reset of progress and cancel flag.             -/
/- ------------------------------------------------------------------ -/

/-- C10: every `generate()` call on a valid handle stores
`progress = 0.0` and then `cancelled = false` (after acquiring the
generation lock) before doing any other work — they are the first two
events of every trace — and the run does not depend on the cancelled
value at entry, so a cancel signal issued before the call begins is
discarded, and observable progress restarts from zero. -/
theorem c10_entry_reset :
    (∀ env : GenEnv, (generateRun env).1.take 2
        = [Ev.storeProgress 0, Ev.storeCancelled false]) ∧
    (∀ (b₁ b₂ : Bool) (env : GenEnv),
        generateRunEntry b₁ env = generateRunEntry b₂ env) := by
  constructor
  · intro env
    unfold generateRun
    split
    next => rfl
    next => rfl
  · intro b₁ b₂ env
    rfl

/-- `loadT5` succeeds when its three failable steps succeed. -/
theorem loadT5Run_ok_of (env : GenEnv) (h1 : env.t5BuildOk = true)
    (h2 : env.t5InterpOk = true) (h3 : env.t5AllocOk = true) :
    (loadT5Run env).2 = true := by
  simp [loadT5Run, h1, h2, h3]

/-- `loadDiT` succeeds when its three failable steps succeed. -/
theorem loadDiTRun_ok_of (env : GenEnv) (h1 : env.ditBuildOk = true)
    (h2 : env.ditInterpOk = true) (h3 : env.ditAllocOk = true) :
    (loadDiTRun env).2 = true := by
  simp [loadDiTRun, h1, h2, h3]

/-- `loadAutoEncoder` succeeds when its three failable steps succeed. -/
theorem loadAERun_ok_of (env : GenEnv) (h1 : env.aeBuildOk = true)
    (h2 : env.aeInterpOk = true) (h3 : env.aeAllocOk = true) :
    (loadAERun env).2 = true := by
  simp [loadAERun, h1, h2, h3]

/-- Unfolding of `generate()` past the parameter check. -/
theorem generateRun_eq (env : GenEnv) (hs : env.stringsOk = true) :
    generateRun env
      = ([Ev.storeProgress 0, Ev.storeCancelled false,
          Ev.storeProgress (2/100)] ++ (phase1Run env).1,
         (phase1Run env).2) := by
  unfold generateRun
  rw [if_neg (by simp [hs])]

/-- Unfolding of phase 1 when the T5 phase succeeds and the post-T5
cancel check observes the flag set. -/
theorem phase1Run_cancelT5 (env : GenEnv) (h : T5PhaseOk env)
    (hc : env.cancelAfterT5 = true) :
    phase1Run env
      = ((loadT5Run env).1
          ++ [Ev.storeProgress (5/100), Ev.invoke Stage.t5 0]
          ++ unloadT5Events
          ++ [Ev.storeProgress (10/100), Ev.checkCancel true],
         .err .cancelled) := by
  obtain ⟨hs, h1, h2, h3, h4, h5, h6⟩ := h
  have hb : (loadT5Run env).2 = true := loadT5Run_ok_of env h1 h2 h3
  unfold phase1Run
  rw [if_neg (by simp [hb]), if_neg (by simp [h4]), if_neg (by simp [h5]),
      if_neg (by simp [h6]), if_pos hc]

/-- Unfolding of phase 1 when the T5 phase succeeds and the post-T5
cancel check passes. -/
theorem phase1Run_continue (env : GenEnv) (h : T5PhaseOk env)
    (hc : env.cancelAfterT5 = false) :
    phase1Run env
      = ((loadT5Run env).1
          ++ [Ev.storeProgress (5/100), Ev.invoke Stage.t5 0]
          ++ unloadT5Events
          ++ [Ev.storeProgress (10/100), Ev.checkCancel false]
          ++ (phase2Run env).1,
         (phase2Run env).2) := by
  obtain ⟨hs, h1, h2, h3, h4, h5, h6⟩ := h
  have hb : (loadT5Run env).2 = true := loadT5Run_ok_of env h1 h2 h3
  unfold phase1Run
  rw [if_neg (by simp [hb]), if_neg (by simp [h4]), if_neg (by simp [h5]),
      if_neg (by simp [h6]), if_neg (by simp [hc])]

/-- Unfolding of phase 2 when the DiT loads, the tensors resolve, and
the diffusion loop exits with an error. -/
theorem phase2Run_loop_err (env : GenEnv) (hd : DiTLoadOk env)
    (ht : env.ditTensorsOk = true) (e : GenErr)
    (heq : (ditLoopRun env env.steps 0).2 = some e) :
    phase2Run env
      = ((loadDiTRun env).1 ++ (ditLoopRun env env.steps 0).1,
         .err e) := by
  obtain ⟨h1, h2, h3⟩ := hd
  have hb : (loadDiTRun env).2 = true := loadDiTRun_ok_of env h1 h2 h3
  unfold phase2Run
  rw [if_neg (by simp [hb]), if_neg (by simp [ht]), heq]

/-- Unfolding of phase 2 when the loop completes and the pre-decoder
cancel check observes the flag set. -/
theorem phase2Run_cancelAE (env : GenEnv) (hd : DiTLoadOk env)
    (ht : env.ditTensorsOk = true)
    (heq : (ditLoopRun env env.steps 0).2 = none)
    (hc : env.cancelBeforeAE = true) :
    phase2Run env
      = ((loadDiTRun env).1 ++ (ditLoopRun env env.steps 0).1
          ++ unloadDiTEvents
          ++ [Ev.storeProgress (85/100), Ev.checkCancel true],
         .err .cancelled) := by
  obtain ⟨h1, h2, h3⟩ := hd
  have hb : (loadDiTRun env).2 = true := loadDiTRun_ok_of env h1 h2 h3
  unfold phase2Run
  rw [if_neg (by simp [hb]), if_neg (by simp [ht]), heq]
  rw [if_pos hc]

/-- Unfolding of phase 2 when the loop completes and the pre-decoder
cancel check passes. -/
theorem phase2Run_continue (env : GenEnv) (hd : DiTLoadOk env)
    (ht : env.ditTensorsOk = true)
    (heq : (ditLoopRun env env.steps 0).2 = none)
    (hc : env.cancelBeforeAE = false) :
    phase2Run env
      = ((loadDiTRun env).1 ++ (ditLoopRun env env.steps 0).1
          ++ unloadDiTEvents
          ++ [Ev.storeProgress (85/100), Ev.checkCancel false]
          ++ (phase3Run env).1,
         (phase3Run env).2) := by
  obtain ⟨h1, h2, h3⟩ := hd
  have hb : (loadDiTRun env).2 = true := loadDiTRun_ok_of env h1 h2 h3
  unfold phase2Run
  rw [if_neg (by simp [hb]), if_neg (by simp [ht]), heq]
  rw [if_neg (by simp [hc])]

/-- Unfolding of phase 3 when the AutoEncoder loads but the latent
element count differs from the decoder input size. -/
theorem phase3Run_mismatch (env : GenEnv) (hA : AELoadOk env)
    (hl : env.latentMatches = false) :
    phase3Run env
      = ((loadAERun env).1 ++ unloadAEEvents, .err .shapeMismatch) := by
  obtain ⟨h1, h2, h3⟩ := hA
  have hb : (loadAERun env).2 = true := loadAERun_ok_of env h1 h2 h3
  unfold phase3Run
  rw [if_neg (by simp [hb]), if_pos hl]

/-- A loop whose checks all pass exits with no error. -/
theorem ditLoopRun_none_of (env : GenEnv) :
    ∀ (n i : ℕ),
      (∀ j, j < n →
        env.cancelAtStep (i + j) = false ∧ env.ditInvokeOk (i + j) = true) →
      (ditLoopRun env n i).2 = none := by
  intro n
  induction n with
  | zero => intro i _; rfl
  | succ m ih =>
    intro i h
    have h0 := h 0 (by omega)
    have hc : env.cancelAtStep i = false := by simpa using h0.1
    have hv : env.ditInvokeOk i = true := by simpa using h0.2
    rw [ditLoopRun, if_neg (by simp [hc]), if_neg (by simp [hv])]
    show (ditLoopRun env m (i + 1)).2 = none
    apply ih
    intro j hj
    have hjj := h (j + 1) (by omega)
    have he : i + (j + 1) = (i + 1) + j := by omega
    rw [he] at hjj
    exact hjj

/-- A loop whose first `k` checks pass and whose cancel check at step
`k` observes the flag set exits with the cancellation error, having
invoked the diffuser only at steps before `k`. -/
theorem ditLoopRun_cancel_at (env : GenEnv) :
    ∀ (k n i : ℕ), k < n →
      (∀ j, j < k →
        env.cancelAtStep (i + j) = false ∧ env.ditInvokeOk (i + j) = true) →
      env.cancelAtStep (i + k) = true →
      (ditLoopRun env n i).2 = some .cancelled ∧
      (∀ j, Ev.invoke Stage.dit j ∈ (ditLoopRun env n i).1 → j < i + k) := by
  intro k
  induction k with
  | zero =>
    intro n i hk _ hc
    obtain ⟨m, rfl⟩ : ∃ m, n = m + 1 := ⟨n - 1, by omega⟩
    have hc' : env.cancelAtStep i = true := by simpa using hc
    rw [ditLoopRun, if_pos hc']
    refine ⟨rfl, ?_⟩
    intro j hj
    simp [unloadDiTEvents] at hj
  | succ kk ih =>
    intro n i hk hpass hc
    obtain ⟨m, rfl⟩ : ∃ m, n = m + 1 := ⟨n - 1, by omega⟩
    have h0 := hpass 0 (by omega)
    have hc0 : env.cancelAtStep i = false := by simpa using h0.1
    have hv0 : env.ditInvokeOk i = true := by simpa using h0.2
    rw [ditLoopRun, if_neg (by simp [hc0]), if_neg (by simp [hv0])]
    have hshift : ∀ j, j < kk →
        env.cancelAtStep ((i + 1) + j) = false ∧
        env.ditInvokeOk ((i + 1) + j) = true := by
      intro j hj
      have hjj := hpass (j + 1) (by omega)
      have he : i + (j + 1) = (i + 1) + j := by omega
      rw [he] at hjj
      exact hjj
    have hck : env.cancelAtStep ((i + 1) + kk) = true := by
      have he : i + (kk + 1) = (i + 1) + kk := by omega
      rw [he] at hc
      exact hc
    have ihh := ih m (i + 1) (by omega) hshift hck
    refine ⟨ihh.1, ?_⟩
    intro j hj
    simp only [List.cons_append, List.nil_append, List.mem_cons] at hj
    rcases hj with h | h | h | h
    · exact absurd h (by simp)
    · have hji : j = i := by
        injection h with hm hj'
      omega
    · exact absurd h (by simp)
    · have := ihh.2 j h
      omega

/-- An event owned by T5 or by nothing is not a DiT or AE event. -/
theorem not_dit_ae_of_t5owner {e : Ev}
    (h : evOwner e = some .t5 ∨ evOwner e = none) :
    evOwner e ≠ some .dit ∧ evOwner e ≠ some .ae := by
  rcases h with h | h <;> simp [h]

/-- An event owned by DiT or by nothing is not an AE event. -/
theorem not_ae_of_ditowner {e : Ev}
    (h : evOwner e = some .dit ∨ evOwner e = none) :
    evOwner e ≠ some .ae := by
  rcases h with h | h <;> simp [h]

/-- `loadDiT` performs no invocation. -/
theorem loadDiTRun_no_invoke (env : GenEnv) (m : Stage) (j : ℕ) :
    Ev.invoke m j ∉ (loadDiTRun env).1 := by
  cases h1 : env.ditBuildOk <;> cases h2 : env.ditInterpOk <;>
    cases h3 : env.ditAllocOk <;> cases h4 : env.tryGpu <;>
      cases h5 : env.ditGpuOk <;> cases h6 : env.ditXnnOk <;>
        simp [loadDiTRun, ditDelegateEvents, unloadDiTEvents,
              h1, h2, h3, h4, h5, h6]

/-- `loadAutoEncoder` performs no invocation. -/
theorem loadAERun_no_invoke (env : GenEnv) (m : Stage) (j : ℕ) :
    Ev.invoke m j ∉ (loadAERun env).1 := by
  cases h1 : env.aeBuildOk <;> cases h2 : env.aeInterpOk <;>
    cases h3 : env.aeAllocOk <;> cases h4 : env.tryGpu <;>
      cases h5 : env.aeGpuOk <;> cases h6 : env.aeXnnOk <;>
        simp [loadAERun, aeDelegateEvents, unloadAEEvents,
              h1, h2, h3, h4, h5, h6]

/-- Owner facts for the events of the T5 phase (without phase 2). -/
theorem t5_segment_owner (env : GenEnv) :
    ∀ e ∈ (((loadT5Run env).1
        ++ [Ev.storeProgress (5/100), Ev.invoke Stage.t5 0])
        ++ unloadT5Events)
        ++ [Ev.storeProgress (10/100), Ev.checkCancel false],
      evOwner e = some .t5 ∨ evOwner e = none := by
  have hmid : ∀ e ∈ [Ev.storeProgress (5/100), Ev.invoke Stage.t5 0],
      evOwner e = some .t5 ∨ evOwner e = none := by
    intro e he
    simp only [List.mem_cons, List.not_mem_nil, or_false] at he
    rcases he with rfl | rfl <;> simp [evOwner]
  have htailf : ∀ e ∈ [Ev.storeProgress (10/100), Ev.checkCancel false],
      evOwner e = some .t5 ∨ evOwner e = none := by
    intro e he
    simp only [List.mem_cons, List.not_mem_nil, or_false] at he
    rcases he with rfl | rfl <;> simp [evOwner]
  exact owner_append
    (owner_append (owner_append (loadT5Run_owner env) hmid)
      unloadT5Events_owner) htailf

/-- Owner facts (T5 variant with the cancel check observed set). -/
theorem t5_segment_owner_cancelled (env : GenEnv) :
    ∀ e ∈ (((loadT5Run env).1
        ++ [Ev.storeProgress (5/100), Ev.invoke Stage.t5 0])
        ++ unloadT5Events)
        ++ [Ev.storeProgress (10/100), Ev.checkCancel true],
      evOwner e = some .t5 ∨ evOwner e = none := by
  have hmid : ∀ e ∈ [Ev.storeProgress (5/100), Ev.invoke Stage.t5 0],
      evOwner e = some .t5 ∨ evOwner e = none := by
    intro e he
    simp only [List.mem_cons, List.not_mem_nil, or_false] at he
    rcases he with rfl | rfl <;> simp [evOwner]
  have htailt : ∀ e ∈ [Ev.storeProgress (10/100), Ev.checkCancel true],
      evOwner e = some .t5 ∨ evOwner e = none := by
    intro e he
    simp only [List.mem_cons, List.not_mem_nil, or_false] at he
    rcases he with rfl | rfl <;> simp [evOwner]
  exact owner_append
    (owner_append (owner_append (loadT5Run_owner env) hmid)
      unloadT5Events_owner) htailt

/-- Owner facts for the three entry events. -/
theorem pre_segment_owner :
    ∀ e ∈ [Ev.storeProgress 0, Ev.storeCancelled false,
        Ev.storeProgress (2/100)],
      evOwner e = none := by
  intro e he
  simp only [List.mem_cons, List.not_mem_nil, or_false] at he
  rcases he with rfl | rfl | rfl <;> rfl

/- ------------------------------------------------------------------ -/
/- Claim C6: cancellation checkpoints.                                 -/
/- ------------------------------------------------------------------ -/

/-- C6: the cancel flag is checked after the encoder is unloaded,
before each of the diffusion steps, and after the diffuser is unloaded;
whenever a check observes it set, `generate()` returns failure
immediately with the cancellation error kind — distinguished from
invocation failures — without running any remaining stage (after the
post-encoder check no DiT or AE event occurs; after the check before
step `k` no further diffusion step and no AE event occurs; after the
post-diffuser check no AE event occurs), and with every loaded stage
unloaded before returning. -/
theorem c6_cancellation (env : GenEnv) :
    (T5PhaseOk env → env.cancelAfterT5 = true →
      (generateRun env).2 = .err .cancelled ∧
      finalOf (generateRun env).1 = ∅ ∧
      (∀ e ∈ (generateRun env).1,
        evOwner e ≠ some .dit ∧ evOwner e ≠ some .ae)) ∧
    (∀ k, T5PhaseOk env → env.cancelAfterT5 = false → DiTLoadOk env →
      env.ditTensorsOk = true → k < env.steps →
      (∀ j, j < k →
        env.cancelAtStep j = false ∧ env.ditInvokeOk j = true) →
      env.cancelAtStep k = true →
      (generateRun env).2 = .err .cancelled ∧
      finalOf (generateRun env).1 = ∅ ∧
      (∀ e ∈ (generateRun env).1, evOwner e ≠ some .ae) ∧
      (∀ j, Ev.invoke Stage.dit j ∈ (generateRun env).1 → j < k)) ∧
    (T5PhaseOk env → env.cancelAfterT5 = false → DiTLoadOk env →
      env.ditTensorsOk = true →
      (∀ j, j < env.steps →
        env.cancelAtStep j = false ∧ env.ditInvokeOk j = true) →
      env.cancelBeforeAE = true →
      (generateRun env).2 = .err .cancelled ∧
      finalOf (generateRun env).1 = ∅ ∧
      (∀ e ∈ (generateRun env).1, evOwner e ≠ some .ae)) := by
  refine ⟨?_, ?_, ?_⟩
  · intro h hc
    have hs := h.1
    refine ⟨?_, generateRun_final env, ?_⟩
    · rw [generateRun_eq env hs, phase1Run_cancelT5 env h hc]
    · intro e he
      rw [generateRun_eq env hs, phase1Run_cancelT5 env h hc] at he
      rcases List.mem_append.mp he with hp | h1
      · have := pre_segment_owner e hp
        simp [this]
      · exact not_dit_ae_of_t5owner (t5_segment_owner_cancelled env e h1)
  · intro k h hc hd ht hk hpass hck
    have hs := h.1
    have hpass0 : ∀ j, j < k →
        env.cancelAtStep (0 + j) = false ∧
        env.ditInvokeOk (0 + j) = true := by
      intro j hj
      simpa using hpass j hj
    have hck0 : env.cancelAtStep (0 + k) = true := by simpa using hck
    have hloopc := ditLoopRun_cancel_at env k env.steps 0 hk hpass0 hck0
    have heq := hloopc.1
    refine ⟨?_, generateRun_final env, ?_, ?_⟩
    · rw [generateRun_eq env hs, phase1Run_continue env h hc,
          phase2Run_loop_err env hd ht _ heq]
    · intro e he
      rw [generateRun_eq env hs, phase1Run_continue env h hc,
          phase2Run_loop_err env hd ht _ heq] at he
      rcases List.mem_append.mp he with hp | h1
      · have := pre_segment_owner e hp
        simp [this]
      · rcases List.mem_append.mp h1 with h2 | h3
        · exact (not_dit_ae_of_t5owner (t5_segment_owner env e h2)).2
        · rcases List.mem_append.mp h3 with h4 | h5
          · exact not_ae_of_ditowner (loadDiTRun_owner env e h4)
          · exact not_ae_of_ditowner (ditLoopRun_owner env env.steps 0 e h5)
    · intro j hj
      rw [generateRun_eq env hs, phase1Run_continue env h hc,
          phase2Run_loop_err env hd ht _ heq] at hj
      rcases List.mem_append.mp hj with hp | h1
      · simp at hp
      · rcases List.mem_append.mp h1 with h2 | h3
        · have := t5_segment_owner env _ h2
          simp [evOwner] at this
        · rcases List.mem_append.mp h3 with h4 | h5
          · exact absurd h4 (loadDiTRun_no_invoke env _ _)
          · have := hloopc.2 j h5
            omega
  · intro h hc hd ht hpass hcae
    have hs := h.1
    have heq : (ditLoopRun env env.steps 0).2 = none :=
      ditLoopRun_none_of env env.steps 0 (by
        intro j hj
        simpa using hpass j hj)
    refine ⟨?_, generateRun_final env, ?_⟩
    · rw [generateRun_eq env hs, phase1Run_continue env h hc,
          phase2Run_cancelAE env hd ht heq hcae]
    · intro e he
      rw [generateRun_eq env hs, phase1Run_continue env h hc,
          phase2Run_cancelAE env hd ht heq hcae] at he
      rcases List.mem_append.mp he with hp | h1
      · have := pre_segment_owner e hp
        simp [this]
      · rcases List.mem_append.mp h1 with h2 | h3
        · exact (not_dit_ae_of_t5owner (t5_segment_owner env e h2)).2
        · rcases List.mem_append.mp h3 with h4 | h5
          · rcases List.mem_append.mp h4 with h6 | h7
            · rcases List.mem_append.mp h6 with h8 | h9
              · exact not_ae_of_ditowner (loadDiTRun_owner env e h8)
              · exact not_ae_of_ditowner
                  (ditLoopRun_owner env env.steps 0 e h9)
            · exact not_ae_of_ditowner (unloadDiTEvents_owner e h7)
          · simp only [List.mem_cons, List.not_mem_nil, or_false] at h5
            rcases h5 with rfl | rfl <;> simp [evOwner]

/-- Witness for C6 at the three checkpoints. -/
theorem c6_cancellation_witness :
    (generateRun envCancelT5).2 = .err .cancelled ∧
    (generateRun envCancelStep).2 = .err .cancelled ∧
    (generateRun envCancelAE).2 = .err .cancelled ∧
    finalOf (generateRun envCancelStep).1 = ∅ := by
  have h1 := (c6_cancellation envCancelT5).1
    ⟨rfl, rfl, rfl, rfl, rfl, rfl, rfl⟩ rfl
  have h2 := (c6_cancellation envCancelStep).2.1 1
    ⟨rfl, rfl, rfl, rfl, rfl, rfl, rfl⟩ rfl ⟨rfl, rfl, rfl⟩ rfl
    (by decide) (by decide) rfl
  have h3 := (c6_cancellation envCancelAE).2.2
    ⟨rfl, rfl, rfl, rfl, rfl, rfl, rfl⟩ rfl ⟨rfl, rfl, rfl⟩ rfl
    (by decide) rfl
  exact ⟨h1.1, h2.1, h3.1, h2.2.1⟩

/- ------------------------------------------------------------------ -/
/- Claim C5: shape-mismatch policy.                                    -/
/- ------------------------------------------------------------------ -/

/-- C5: a size mismatch between the encoder's conditioning output
buffer and the diffuser's conditioning input tensor is tolerated — the
copy truncates to the smaller of the two sizes and zero-fills any
remaining tensor space (the copy is a total function with no failure
branch, so generation proceeds) — whereas any mismatch between the
diffusion latent buffer and the decoder's expected input element count
is fatal: `generate()` returns the shape-mismatch error, with the
decoder unloaded and never invoked. -/
theorem c5_shape_mismatch_policy :
    (∀ (buf : List ℝ) (expected : ℕ),
      (dit_crossattn_copy buf expected).length = expected ∧
      dit_crossattn_copy buf expected
        = buf.take expected ++ List.replicate (expected - buf.length) 0) ∧
    (∀ env : GenEnv, T5PhaseOk env → env.cancelAfterT5 = false →
      DiTLoadOk env → env.ditTensorsOk = true →
      (∀ j, j < env.steps →
        env.cancelAtStep j = false ∧ env.ditInvokeOk j = true) →
      env.cancelBeforeAE = false → AELoadOk env →
      env.latentMatches = false →
      (generateRun env).2 = .err .shapeMismatch ∧
      (∀ j, Ev.invoke Stage.ae j ∉ (generateRun env).1) ∧
      finalOf (generateRun env).1 = ∅) := by
  constructor
  · intro buf expected
    constructor
    · rw [dit_crossattn_copy]
      by_cases hel : buf.length = expected
      · rw [if_pos hel]
        exact hel
      · rw [if_neg hel]
        simp [List.length_take]
        omega
    · rw [dit_crossattn_copy]
      by_cases hel : buf.length = expected
      · rw [if_pos hel, ← hel]
        simp [List.take_length]
      · rw [if_neg hel]
        rcases le_or_lt buf.length expected with hle | hlt
        · rw [min_eq_left hle, List.take_length,
              List.take_of_length_le hle]
        · rw [min_eq_right (le_of_lt hlt)]
  · intro env h hc hd ht hpass hcae hA hl
    have hs := h.1
    have heq : (ditLoopRun env env.steps 0).2 = none :=
      ditLoopRun_none_of env env.steps 0 (by
        intro j hj
        simpa using hpass j hj)
    refine ⟨?_, ?_, generateRun_final env⟩
    · rw [generateRun_eq env hs, phase1Run_continue env h hc,
          phase2Run_continue env hd ht heq hcae,
          phase3Run_mismatch env hA hl]
    · intro j hj
      rw [generateRun_eq env hs, phase1Run_continue env h hc,
          phase2Run_continue env hd ht heq hcae,
          phase3Run_mismatch env hA hl] at hj
      rcases List.mem_append.mp hj with hp | h1
      · simp at hp
      · rcases List.mem_append.mp h1 with h2 | h3
        · have := t5_segment_owner env _ h2
          simp [evOwner] at this
        · rcases List.mem_append.mp h3 with h4 | h5
          · rcases List.mem_append.mp h4 with h6 | h7
            · rcases List.mem_append.mp h6 with h8 | h9
              · rcases List.mem_append.mp h8 with h10 | h11
                · exact absurd h10 (loadDiTRun_no_invoke env _ _)
                · have := ditLoopRun_owner env env.steps 0 _ h11
                  simp [evOwner] at this
              · simp [unloadDiTEvents] at h9
            · simp at h7
          · rcases List.mem_append.mp h5 with h12 | h13
            · exact absurd h12 (loadAERun_no_invoke env _ _)
            · simp [unloadAEEvents] at h13

/-- Witness for C5: truncate-and-pad at concrete sizes, and the fatal
latent mismatch at a concrete environment. -/
theorem c5_shape_mismatch_policy_witness :
    dit_crossattn_copy [1, 2, 3] 5
      = [(1:ℝ), 2, 3].take 5 ++ List.replicate (5 - [(1:ℝ), 2, 3].length) 0 ∧
    (generateRun envLatentMismatch).2 = .err .shapeMismatch ∧
    finalOf (generateRun envLatentMismatch).1 = ∅ := by
  have ha := (c5_shape_mismatch_policy.1 [1, 2, 3] 5).2
  have hb := c5_shape_mismatch_policy.2 envLatentMismatch
    ⟨rfl, rfl, rfl, rfl, rfl, rfl, rfl⟩ rfl ⟨rfl, rfl, rfl⟩ rfl
    (by decide) rfl ⟨rfl, rfl, rfl⟩ rfl
  exact ⟨ha, hb.1, hb.2.2⟩

